import Mathlib

/-!
Shallow embedding of the signal state engine of the
`spanston/quantconnect-chikou-bitcoin-strategy` repository.

The embedded code is `src/ChikouAdvancedAlgorithm.py` (the breakout /
retest / neutral-reset state machine and the trend-scoring formula) and
the cooldown-guarded `CheckForSignals` / `CheckExitConditions` pair of
`src/ChikouBitcoinAlgorithm.py`.

Modelling conventions:
- prices, volumes and scores are rationals (`ℚ`), standing for the
  source's floats/decimals;
- wall-clock timestamps are integers counting minutes (`ℤ`); the
  source's `timedelta(hours=12)` cooldown becomes `720` minutes and the
  `EndTime.minute == 0` close-confirmation check becomes `endTime % 60 = 0`;
- host-computed indicator values (Ichimoku lines, the volume SMA) reach
  the engine as a read-only `IndicatorSnapshot`, and the portfolio
  quantity read by `ProcessRetestSignal` is an input of the step;
- order submissions (`LiquidateAll` / `MarketOrder`) become a list of
  emitted `TradeEvent`s; log lines are not modelled;
- the QC `RollingWindow` (most-recent-first indexing, bounded capacity,
  oldest evicted) is a list with the newest bar in front, truncated to
  its capacity; an out-of-range indexer access (which raises in the
  host runtime) is modelled by `Option`.
-/

/-- `SignalState` enum of `ChikouAdvancedAlgorithm.py` (lines 10-13). -/
inductive SignalState where
  | NEUTRAL
  | BULLISH
  | BEARISH
deriving DecidableEq, Repr

/-- The integer `value` of each `SignalState` enum member
(`NEUTRAL = 0`, `BULLISH = 1`, `BEARISH = -1`). -/
def SignalState.value : SignalState → ℤ
  | .NEUTRAL => 0
  | .BULLISH => 1
  | .BEARISH => -1

/-- One consolidated 4-hour bar: the fields of the `QuoteBar` the engine
reads (`Open`, `High`, `Low`, `Close`, `Volume`, `EndTime`).
`endTime` is in minutes of wall-clock time. -/
structure Bar where
  open_ : ℚ
  high : ℚ
  low : ℚ
  close : ℚ
  volume : ℚ
  endTime : ℤ
deriving DecidableEq, Repr

instance : Inhabited Bar := ⟨⟨0, 0, 0, 0, 0, 0⟩⟩

/-- Host-computed indicator values valid at the current bar:
the Ichimoku lines with their ready flag, and the volume SMA with its
ready flag (`self.ichimoku`, `self.volume_sma`). -/
structure IndicatorSnapshot where
  tenkan : ℚ
  kijun : ℚ
  senkouA : ℚ
  senkouB : ℚ
  ichimoku_ready : Bool
  volume_sma : ℚ
  volume_sma_ready : Bool
deriving DecidableEq, Repr

/-- Order intents the engine emits to the execution collaborator:
`LiquidateAll()` and `MarketOrder` with a signed size expressed as
the portfolio fraction passed to `CalculateOrderQuantity`. -/
inductive TradeEvent where
  | liquidate
  | marketOrder (fraction : ℚ)
deriving DecidableEq, Repr

/-- The static configuration fixed by `Initialize`
(`ChikouAdvancedAlgorithm.py` lines 28-49), plus the minimum price
variation `epsilon` read from the symbol properties (line 268). -/
structure Config where
  displacement : ℕ
  use_bodies : Bool
  confirm_on_close : Bool
  show_retest_signals : Bool
  retest_min_delay_bars : ℕ
  neutral_reset_bars : ℕ
  use_volume : Bool
  volume_sensitivity : ℚ
  volume_lookback : ℕ
  volume_cap : ℚ
  position_size : ℚ
  min_signal_interval : ℤ
  epsilon : ℚ
deriving DecidableEq, Repr

/-- The parameter values set in `Initialize` of `ChikouAdvancedAlgorithm.py`:
displacement 26, wick-based references, close confirmation on, retests on
with a 2-bar minimum delay, 60-bar neutral reset, volume weighting with
sensitivity 0.35, lookback 20 and cap 3.0, position size 0.8, a 12-hour
(720-minute) signal cooldown, and a 0.01 minimum price variation. -/
def defaultConfig : Config where
  displacement := 26
  use_bodies := false
  confirm_on_close := true
  show_retest_signals := true
  retest_min_delay_bars := 2
  neutral_reset_bars := 60
  use_volume := true
  volume_sensitivity := 35 / 100
  volume_lookback := 20
  volume_cap := 3
  position_size := 8 / 10
  min_signal_interval := 720
  epsilon := 1 / 100

/-- The mutable engine state (`ChikouAdvancedAlgorithm.py` lines 67-86):
direction state machine, breakout/retest bookkeeping, the trend score,
the bar counter, the signal counters, and the rolling price history
(newest bar first, capacity `displacement + 10`). -/
structure EngineState where
  active_direction : SignalState
  last_breakout_bar : Option ℕ
  last_breakout_direction : SignalState
  last_retest_bar : Option ℕ
  last_signal_time : Option ℤ
  trend_score : ℚ
  bar_index : ℕ
  breakout_signals : ℕ
  retest_signals : ℕ
  price_history : List Bar
deriving DecidableEq, Repr

/-- The engine state right after `Initialize`. -/
def initialState : EngineState where
  active_direction := .NEUTRAL
  last_breakout_bar := none
  last_breakout_direction := .NEUTRAL
  last_retest_bar := none
  last_signal_time := none
  trend_score := 0
  bar_index := 0
  breakout_signals := 0
  retest_signals := 0
  price_history := []

/-- One invocation's inputs: the consolidated bar, the indicator
snapshot, the portfolio quantity read by `ProcessRetestSignal`, and the
host's warm-up flag. -/
structure StepInput where
  bar : Bar
  ind : IndicatorSnapshot
  portfolio_qty : ℚ
  is_warming_up : Bool
deriving DecidableEq, Repr

/-! ## Trend scoring (`CalculateTrendScore`, lines 139-197) -/

/-- Weight of the active-direction bias component (`W_BIAS`). -/
def W_BIAS : ℚ := 35

/-- Weight of the Tenkan/Kijun component (`W_TK`). -/
def W_TK : ℚ := 25

/-- Weight of the Chikou-vs-Kijun component (`W_CH_KIJUN`). -/
def W_CH_KIJUN : ℚ := 20

/-- Weight of the Chikou-vs-Cloud component (`W_CH_CLOUD`). -/
def W_CH_CLOUD : ℚ := 20

/-- `score_tk` (line 167): `W_TK` if Tenkan above Kijun, `-W_TK` if
below, else 0. -/
def scoreTk (tenkan kijun : ℚ) : ℚ :=
  if tenkan > kijun then W_TK else if tenkan < kijun then -W_TK else 0

/-- `score_ch_kijun` (line 170): Chikou (current close) against the
Kijun proxy at the Chikou reference. -/
def scoreChKijun (chikou kijun_at_chikou : ℚ) : ℚ :=
  if chikou > kijun_at_chikou then W_CH_KIJUN
  else if chikou < kijun_at_chikou then -W_CH_KIJUN else 0

/-- `score_ch_cloud` (lines 173-177): Chikou against the cloud at the
reference. -/
def scoreChCloud (chikou cloud_top cloud_bottom : ℚ) : ℚ :=
  if chikou > cloud_top then W_CH_CLOUD
  else if chikou < cloud_bottom then -W_CH_CLOUD else 0

/-- `volume_mult` (lines 179-186): 1.0 unless volume weighting is on and
the volume SMA is ready with a positive average, in which case the
capped relative volume is scaled by the sensitivity.  `current_vol`
equals the bar volume (the source's `float(data.Volume) if data.Volume
else 0.0` yields the same number in both branches). -/
def volumeMultiplier (cfg : Config) (ind : IndicatorSnapshot) (data : Bar) : ℚ :=
  if cfg.use_volume ∧ ind.volume_sma_ready then
    let current_vol := data.volume
    let avg_vol := ind.volume_sma
    if avg_vol > 0 then
      let rel_vol := min (current_vol / avg_vol) cfg.volume_cap
      1 + (rel_vol - 1) * cfg.volume_sensitivity
    else 1
  else 1

/-- `max_possible` (line 195): the clamp bound
`W_BIAS + (W_TK + W_CH_KIJUN + W_CH_CLOUD) * (1 + (volume_cap - 1) * volume_sensitivity)`. -/
def maxPossible (cfg : Config) : ℚ :=
  W_BIAS + (W_TK + W_CH_KIJUN + W_CH_CLOUD)
    * (1 + (cfg.volume_cap - 1) * cfg.volume_sensitivity)

/-- The symmetric clamp of line 197: `max(-max_possible, min(max_possible, x))`. -/
def clampScore (cfg : Config) (x : ℚ) : ℚ :=
  max (-maxPossible cfg) (min (maxPossible cfg) x)

/-- `CalculateTrendScore` (lines 139-197).  Reads the engine's active
direction and rolling price history (already containing the current
bar), the indicator snapshot and the current bar.  Returns `none` when
the `price_history[displacement]` indexer access is out of range, which
raises in the host runtime (only possible when the window holds exactly
`displacement` bars, a case the caller's guard makes unreachable);
returns `some 0` when the window holds fewer than `displacement` bars
(the source's early `return 0.0`). -/
def calculateTrendScore (cfg : Config) (st : EngineState)
    (ind : IndicatorSnapshot) (data : Bar) : Option ℚ :=
  let tenkan := ind.tenkan
  let kijun := ind.kijun
  let senkou_a := ind.senkouA
  let senkou_b := ind.senkouB
  let chikou := data.close
  if cfg.displacement ≤ st.price_history.length then
    match st.price_history.get? cfg.displacement with
    | none => none
    | some refBar =>
      let kijun_at_chikou := refBar.close
      let cloud_top_at_chikou := max senkou_a senkou_b
      let cloud_bottom_at_chikou := min senkou_a senkou_b
      let score_bias : ℚ := (st.active_direction.value : ℚ) * W_BIAS
      let directional_score :=
        (scoreTk tenkan kijun + scoreChKijun chikou kijun_at_chikou
          + scoreChCloud chikou cloud_top_at_chikou cloud_bottom_at_chikou)
        * volumeMultiplier cfg ind data
      let final_score := score_bias + directional_score
      some (clampScore cfg final_score)
  else
    some 0

/-! ## Breakout detection (`CheckBreakoutSignals` / `ProcessBreakoutSignal`,
lines 199-247) -/

/-- The cooldown guard of lines 203-204: a signal fired within
`min_signal_interval` of the bar's end time. -/
def cooldownActive (cfg : Config) (st : EngineState) (t : ℤ) : Bool :=
  match st.last_signal_time with
  | some ts => decide (t - ts < cfg.min_signal_interval)
  | none => false

/-- `ProcessBreakoutSignal` (lines 221-247): records the breakout
(direction, bar index, signal time, counter) and emits a
liquidate-then-enter order pair signed by the direction. -/
def processBreakoutSignal (cfg : Config) (st : EngineState)
    (direction : SignalState) (data : Bar) : EngineState × List TradeEvent :=
  let st' := { st with
    active_direction := direction
    last_breakout_direction := direction
    last_breakout_bar := some st.bar_index
    last_signal_time := some data.endTime
    breakout_signals := st.breakout_signals + 1 }
  match direction with
  | .BULLISH => (st', [.liquidate, .marketOrder cfg.position_size])
  | .BEARISH => (st', [.liquidate, .marketOrder (-cfg.position_size)])
  | .NEUTRAL => (st', [])

/-- `CheckBreakoutSignals` (lines 199-219): skipped under cooldown; a
bullish breakout when the close exceeds the reference high and the state
is not already BULLISH, else (the source's `elif`) a bearish breakout
when the close falls below the reference low and the state is not
already BEARISH; each gated by the simplified close confirmation
(`not confirm_on_close or EndTime.minute == 0`). -/
def checkBreakoutSignals (cfg : Config) (st : EngineState) (data : Bar)
    (current_price ref_high ref_low : ℚ) : EngineState × List TradeEvent :=
  if cooldownActive cfg st data.endTime then (st, [])
  else if current_price > ref_high ∧ st.active_direction ≠ .BULLISH then
    if ¬cfg.confirm_on_close ∨ data.endTime % 60 = 0 then
      processBreakoutSignal cfg st .BULLISH data
    else (st, [])
  else if current_price < ref_low ∧ st.active_direction ≠ .BEARISH then
    if ¬cfg.confirm_on_close ∨ data.endTime % 60 = 0 then
      processBreakoutSignal cfg st .BEARISH data
    else (st, [])
  else (st, [])

/-! ## Retest detection (`CheckRetestSignals` / `ProcessRetestSignal`,
lines 249-310) -/

/-- `ProcessRetestSignal` (lines 284-310): records the retest bar and
counter; logs only when already positioned in the retest direction,
otherwise emits a half-size entry order. -/
def processRetestSignal (cfg : Config) (st : EngineState)
    (direction : SignalState) (current_position : ℚ) :
    EngineState × List TradeEvent :=
  let st' := { st with
    last_retest_bar := some st.bar_index
    retest_signals := st.retest_signals + 1 }
  if direction = .BULLISH ∧ current_position > 0 then (st', [])
  else if direction = .BEARISH ∧ current_position < 0 then (st', [])
  else
    match direction with
    | .BULLISH => (st', [.marketOrder (cfg.position_size * (1 / 2))])
    | .BEARISH => (st', [.marketOrder (-cfg.position_size * (1 / 2))])
    | .NEUTRAL => (st', [])

/-- `CheckRetestSignals` (lines 249-282): requires a recorded breakout
with non-NEUTRAL direction, the bar count since the breakout inside the
`[retest_min_delay_bars, 60]` window, and no retest already recorded for
this breakout; then fires when the bar dips to (within `epsilon`) and
closes back across the current displacement-back reference level. -/
def checkRetestSignals (cfg : Config) (st : EngineState) (data : Bar)
    (current_price ref_high ref_low : ℚ) (portfolio_qty : ℚ) :
    EngineState × List TradeEvent :=
  match st.last_breakout_bar with
  | none => (st, [])
  | some lb =>
    if st.last_breakout_direction = .NEUTRAL then (st, [])
    else
      let bars_since_breakout : ℤ := (st.bar_index : ℤ) - (lb : ℤ)
      if bars_since_breakout < (cfg.retest_min_delay_bars : ℤ)
          ∨ bars_since_breakout > 60 then (st, [])
      else if (match st.last_retest_bar with
               | some lr => decide (lr ≥ lb)
               | none => false) then (st, [])
      else
        let epsilon := cfg.epsilon
        if st.last_breakout_direction = .BULLISH
            ∧ data.low ≤ ref_high + epsilon
            ∧ current_price ≥ ref_high then
          processRetestSignal cfg st .BULLISH portfolio_qty
        else if st.last_breakout_direction = .BEARISH
            ∧ data.high ≥ ref_low - epsilon
            ∧ current_price ≤ ref_low then
          processRetestSignal cfg st .BEARISH portfolio_qty
        else (st, [])

/-! ## Neutral reset (`CheckNeutralReset`, lines 312-323) -/

/-- `CheckNeutralReset` (lines 312-323): forces the active direction
back to NEUTRAL once strictly more than `neutral_reset_bars` bars have
elapsed since the last breakout. -/
def checkNeutralReset (cfg : Config) (st : EngineState) : EngineState :=
  if st.active_direction ≠ .NEUTRAL then
    match st.last_breakout_bar with
    | some lb =>
      let bars_since_breakout : ℤ := (st.bar_index : ℤ) - (lb : ℤ)
      if bars_since_breakout > (cfg.neutral_reset_bars : ℤ) then
        { st with active_direction := .NEUTRAL }
      else st
    | none => st
  else st

/-! ## Per-bar processing (`OnFourHourData`, lines 88-137) -/

/-- The rolling price history after `price_history.Add(consolidated)`
(line 97): newest bar in front, truncated to the window capacity
`displacement + 10`. -/
def updatedHistory (cfg : Config) (st : EngineState) (bar : Bar) : List Bar :=
  (bar :: st.price_history).take (cfg.displacement + 10)

/-- `ref_high` of lines 112-117 for a given reference bar. -/
def refHighOf (cfg : Config) (ref_bar : Bar) : ℚ :=
  if cfg.use_bodies then max ref_bar.open_ ref_bar.close else ref_bar.high

/-- `ref_low` of lines 112-117 for a given reference bar. -/
def refLowOf (cfg : Config) (ref_bar : Bar) : ℚ :=
  if cfg.use_bodies then min ref_bar.open_ ref_bar.close else ref_bar.low

/-- `OnFourHourData` (lines 88-137): skip during warm-up; advance the
bar counter and the rolling window; return early unless the Ichimoku
indicator is ready and the window holds at least `displacement + 1`
bars; then compute the trend score, run breakout detection, retest
detection (when enabled) and the neutral reset.  Indicator updates
(lines 100-102) happen in the external indicator engine and are
represented by the per-bar snapshot; the cooldown-expiry check of lines
135-137 is a `pass` in the source and has no effect.  Under the window
guard `calculateTrendScore` always returns a value, so the `getD`
default is never used. -/
def onFourHourData (cfg : Config) (st : EngineState) (inp : StepInput) :
    EngineState × List TradeEvent :=
  if inp.is_warming_up then (st, [])
  else
    let st1 := { st with
      bar_index := st.bar_index + 1
      price_history := updatedHistory cfg st inp.bar }
    if ¬inp.ind.ichimoku_ready ∨ st1.price_history.length < cfg.displacement + 1 then
      (st1, [])
    else
      let ref_bar := st1.price_history.getD cfg.displacement default
      let ref_high := refHighOf cfg ref_bar
      let ref_low := refLowOf cfg ref_bar
      let current_price := inp.bar.close
      let st2 := { st1 with
        trend_score := (calculateTrendScore cfg st1 inp.ind inp.bar).getD st1.trend_score }
      let p3 := checkBreakoutSignals cfg st2 inp.bar current_price ref_high ref_low
      let p4 :=
        if cfg.show_retest_signals then
          checkRetestSignals cfg p3.1 inp.bar current_price ref_high ref_low inp.portfolio_qty
        else (p3.1, [])
      let st5 := checkNeutralReset cfg p4.1
      (st5, p3.2 ++ p4.2)

/-- The engine state as it stands right before `CheckBreakoutSignals`
runs inside `OnFourHourData`: bar counter advanced, rolling window
updated, trend score recomputed. -/
def preparedState (cfg : Config) (st : EngineState) (inp : StepInput) : EngineState :=
  let st1 : EngineState := { st with
    bar_index := st.bar_index + 1
    price_history := updatedHistory cfg st inp.bar }
  { st1 with
    trend_score := (calculateTrendScore cfg st1 inp.ind inp.bar).getD st1.trend_score }

/-- Sequential processing of a list of consolidated bars, accumulating
all emitted order intents. -/
def run (cfg : Config) (st : EngineState) : List StepInput → EngineState × List TradeEvent
  | [] => (st, [])
  | inp :: rest =>
    let p := onFourHourData cfg st inp
    let q := run cfg p.1 rest
    (q.1, p.2 ++ q.2)

/-- Engine states reachable from startup by processing bars. -/
inductive Reachable (cfg : Config) : EngineState → Prop where
  | init : Reachable cfg initialState
  | step (st : EngineState) (inp : StepInput) :
      Reachable cfg st → Reachable cfg (onFourHourData cfg st inp).1

/-! ## The simpler strategy (`ChikouBitcoinAlgorithm.py`) -/

/-- Static parameters of `ChikouBitcoinBreakoutAlgorithm.Initialize`
(lines 21-25 and 41-42 of `ChikouBitcoinAlgorithm.py`). -/
structure SimpleConfig where
  chikou_period : ℕ
  bb_period : ℕ
  bb_std_dev : ℚ
  position_size : ℚ
  min_signal_interval : ℤ
deriving DecidableEq, Repr

/-- The values set in `Initialize` of `ChikouBitcoinAlgorithm.py`. -/
def defaultSimpleConfig : SimpleConfig where
  chikou_period := 26
  bb_period := 20
  bb_std_dev := 2
  position_size := 8 / 10
  min_signal_interval := 720

/-- Host-computed values read by `CheckForSignals`: the Ichimoku cloud
lines and the Bollinger bands over the momentum series, with readiness
flags. -/
structure SimpleSnapshot where
  senkouA : ℚ
  senkouB : ℚ
  ichimoku_ready : Bool
  upper_band : ℚ
  lower_band : ℚ
  bb_ready : Bool
deriving DecidableEq, Repr

/-- The trading state of the simpler strategy: the cooldown timestamp
and the Chikou-momentum rolling window (newest first). -/
structure SimpleState where
  last_signal_time : Option ℤ
  chikou_momentum : List ℚ
deriving DecidableEq, Repr

/-- `CheckExitConditions` (`ChikouBitcoinAlgorithm.py` lines 128-141):
liquidate a long when price falls below the cloud top, a short when
price rises above the cloud bottom. -/
def checkExitConditions (holdings current_price cloud_top cloud_bottom : ℚ) :
    List TradeEvent :=
  if holdings > 0 ∧ current_price < cloud_top then [.liquidate]
  else if holdings < 0 ∧ current_price > cloud_bottom then [.liquidate]
  else []

/-- `CheckForSignals` (`ChikouBitcoinAlgorithm.py` lines 74-126): early
return unless the indicators are ready, the momentum window holds at
least two samples, and no signal fired within `min_signal_interval`;
then a Bollinger-band momentum crossover entry in either direction
(each stamping `last_signal_time`), else the exit checks for an open
position. -/
def checkForSignals (cfg : SimpleConfig) (st : SimpleState) (data : Bar)
    (ind : SimpleSnapshot) (holdings : ℚ) : SimpleState × List TradeEvent :=
  if ¬ind.bb_ready ∨ ¬ind.ichimoku_ready ∨ st.chikou_momentum.length < 2 ∨
      (match st.last_signal_time with
       | some ts => decide (data.endTime - ts < cfg.min_signal_interval)
       | none => false) = true then (st, [])
  else
    let current_price := data.close
    let current_momentum := st.chikou_momentum.getD 0 0
    let previous_momentum := st.chikou_momentum.getD 1 0
    let cloud_top := max ind.senkouA ind.senkouB
    let cloud_bottom := min ind.senkouA ind.senkouB
    let upper_band := ind.upper_band
    let lower_band := ind.lower_band
    if previous_momentum ≤ upper_band ∧ current_momentum > upper_band ∧
        current_price > cloud_top ∧ holdings ≤ 0 then
      ({ st with last_signal_time := some data.endTime },
       [.liquidate, .marketOrder cfg.position_size])
    else if previous_momentum ≥ lower_band ∧ current_momentum < lower_band ∧
        current_price < cloud_bottom ∧ holdings ≥ 0 then
      ({ st with last_signal_time := some data.endTime },
       [.liquidate, .marketOrder (-cfg.position_size)])
    else if holdings ≠ 0 then
      (st, checkExitConditions holdings current_price cloud_top cloud_bottom)
    else (st, [])

/-! ## Trace predicates and concrete traces -/

/-- The bar neither exceeds the current reference high nor falls below
the current reference low (vacuously true while the reference window is
still underfilled and breakout detection is not evaluated). -/
def noCross (cfg : Config) (st : EngineState) (inp : StepInput) : Bool :=
  let hist := updatedHistory cfg st inp.bar
  if hist.length < cfg.displacement + 1 then true
  else
    let ref_bar := hist.getD cfg.displacement default
    decide (inp.bar.close ≤ refHighOf cfg ref_bar ∧ refLowOf cfg ref_bar ≤ inp.bar.close)

/-- `noCross` holds at every step of the trace, relative to the state
the engine is in when that bar arrives. -/
def noCrossTrace (cfg : Config) (st : EngineState) : List StepInput → Bool
  | [] => true
  | inp :: rest =>
    noCross cfg st inp && noCrossTrace cfg (onFourHourData cfg st inp).1 rest

/-- A 4-hour bar ending `240 * k` minutes into the run. -/
def mkBar (o h l c : ℚ) (k : ℕ) : Bar :=
  { open_ := o, high := h, low := l, close := c, volume := 0, endTime := 240 * (k : ℤ) }

/-- A flat bar pinned at price 100. -/
def flatBar (k : ℕ) : Bar := mkBar 100 100 100 100 k

/-- A bar dipping to 99.9 and closing back at 100.5 (the spec's retest
scenario bar). -/
def dipBar (k : ℕ) : Bar := mkBar 100 (201 / 2) (999 / 10) (201 / 2) k

/-- Indicator snapshot used in the concrete traces: Ichimoku ready with
all lines at 0, volume SMA not ready. -/
def flatSnapshot : IndicatorSnapshot :=
  { tenkan := 0, kijun := 0, senkouA := 0, senkouB := 0,
    ichimoku_ready := true, volume_sma := 0, volume_sma_ready := false }

/-- A processing input outside warm-up with a flat portfolio. -/
def mkInput (b : Bar) : StepInput :=
  { bar := b, ind := flatSnapshot, portfolio_qty := 0, is_warming_up := false }

/-- Trace 1, bar `k`: flat at 100 for 26 bars, a bullish breakout close
at 105 on bar 27, a qualifying dip on bar 29 (two bars after the
breakout) and an identical second dip on bar 35. -/
def t1Bar (k : ℕ) : Bar :=
  if k = 27 then mkBar 100 105 100 105 k
  else if k = 29 ∨ k = 35 then dipBar k
  else flatBar k

/-- The first `n` inputs of trace 1. -/
def t1Inputs (n : ℕ) : List StepInput :=
  (List.range n).map fun i => mkInput (t1Bar (i + 1))

/-- Bars 30 through 35 of trace 1: flat except the second qualifying
dip on bar 35. -/
def t1Tail : List StepInput :=
  (List.range 6).map fun i => mkInput (t1Bar (i + 30))

/-- Trace 2, bar `k`: like trace 1 up to the bar-27 breakout, but bar 4
(the displacement-back reference of bar 30) has high 102, bars 28-29
stay up at 103, and bar 30 dips to 101.5 and closes at 102.5 — a
qualifying retest of the bar-30 reference level 102, though not of the
level 100 the breakout broke. -/
def t2Bar (k : ℕ) : Bar :=
  if k = 4 then mkBar 100 102 100 100 k
  else if k = 27 then mkBar 100 105 100 105 k
  else if k = 28 ∨ k = 29 then mkBar 103 103 103 103 k
  else if k = 30 then mkBar (205 / 2) (205 / 2) (203 / 2) (205 / 2) k
  else flatBar k

/-- The first `n` inputs of trace 2. -/
def t2Inputs (n : ℕ) : List StepInput :=
  (List.range n).map fun i => mkInput (t2Bar (i + 1))

/-- A state as `CheckRetestSignals` sees it three bars after a bullish
breakout recorded on bar 27, with no retest honored yet. -/
def retestProbeState : EngineState where
  active_direction := .BULLISH
  last_breakout_bar := some 27
  last_breakout_direction := .BULLISH
  last_retest_bar := none
  last_signal_time := some 6480
  trend_score := 0
  bar_index := 30
  breakout_signals := 1
  retest_signals := 0
  price_history := []

/-- A directional state 61 bars after its recorded breakout, due for the
neutral reset. -/
def staleProbeState : EngineState where
  active_direction := .BULLISH
  last_breakout_bar := some 10
  last_breakout_direction := .BULLISH
  last_retest_bar := none
  last_signal_time := some 2400
  trend_score := 0
  bar_index := 71
  breakout_signals := 1
  retest_signals := 0
  price_history := []

/-- A bearish-qualifying bar one bar (240 minutes) after the trace-1
breakout — inside the 12-hour cooldown. -/
def bearProbeBar : Bar := mkBar 100 100 90 90 28

/-- A simple-strategy state whose last signal fired at minute 6480, with
a filled momentum window. -/
def simpleProbeState : SimpleState where
  last_signal_time := some 6480
  chikou_momentum := [5, 0]

/-- An always-ready indicator snapshot for the simple strategy. -/
def simpleProbeSnapshot : SimpleSnapshot where
  senkouA := 0
  senkouB := 0
  ichimoku_ready := true
  upper_band := 1
  lower_band := -1
  bb_ready := true

/-- Trace 3, bar `k`: like trace 1 (breakout on 27, retest on 29), but
bar 30 closes at 90, below its reference low 100 — a qualifying bearish
breakout on the bar right after the retest. -/
def t3Bar (k : ℕ) : Bar :=
  if k = 30 then mkBar 100 100 90 90 k else t1Bar k

/-- The first `n` inputs of trace 3. -/
def t3Inputs (n : ℕ) : List StepInput :=
  (List.range n).map fun i => mkInput (t3Bar (i + 1))

/-- A trace of flat bars only, for the no-crossing scenario. -/
def flatInputs (n : ℕ) : List StepInput :=
  (List.range n).map fun i => mkInput (flatBar (i + 1))

/-! ## Helper lemmas -/

attribute [local semireducible] Rat.add Rat.mul Rat.sub Rat.inv

set_option maxRecDepth 100000

theorem processBreakoutSignal_fst (cfg : Config) (st : EngineState)
    (direction : SignalState) (data : Bar) :
    (processBreakoutSignal cfg st direction data).1 = { st with
      active_direction := direction
      last_breakout_direction := direction
      last_breakout_bar := some st.bar_index
      last_signal_time := some data.endTime
      breakout_signals := st.breakout_signals + 1 } := by
  unfold processBreakoutSignal
  cases direction <;> rfl

theorem checkBreakoutSignals_frame (cfg : Config) (st : EngineState) (data : Bar)
    (p rh rl : ℚ) :
    (checkBreakoutSignals cfg st data p rh rl).1.price_history = st.price_history ∧
    (checkBreakoutSignals cfg st data p rh rl).1.bar_index = st.bar_index ∧
    (checkBreakoutSignals cfg st data p rh rl).1.trend_score = st.trend_score ∧
    (checkBreakoutSignals cfg st data p rh rl).1.last_retest_bar = st.last_retest_bar ∧
    (checkBreakoutSignals cfg st data p rh rl).1.retest_signals = st.retest_signals := by
  unfold checkBreakoutSignals processBreakoutSignal
  dsimp only
  repeat' split
  all_goals exact ⟨rfl, rfl, rfl, rfl, rfl⟩

theorem processRetestSignal_fst (cfg : Config) (st : EngineState)
    (direction : SignalState) (q : ℚ) :
    (processRetestSignal cfg st direction q).1 = { st with
      last_retest_bar := some st.bar_index
      retest_signals := st.retest_signals + 1 } := by
  unfold processRetestSignal
  dsimp only
  repeat' split
  all_goals rfl

theorem checkRetestSignals_frame (cfg : Config) (st : EngineState) (data : Bar)
    (p rh rl q : ℚ) :
    (checkRetestSignals cfg st data p rh rl q).1.price_history = st.price_history ∧
    (checkRetestSignals cfg st data p rh rl q).1.bar_index = st.bar_index ∧
    (checkRetestSignals cfg st data p rh rl q).1.trend_score = st.trend_score ∧
    (checkRetestSignals cfg st data p rh rl q).1.active_direction = st.active_direction ∧
    (checkRetestSignals cfg st data p rh rl q).1.last_breakout_bar = st.last_breakout_bar ∧
    (checkRetestSignals cfg st data p rh rl q).1.last_breakout_direction = st.last_breakout_direction ∧
    (checkRetestSignals cfg st data p rh rl q).1.last_signal_time = st.last_signal_time ∧
    (checkRetestSignals cfg st data p rh rl q).1.breakout_signals = st.breakout_signals := by
  unfold checkRetestSignals processRetestSignal
  dsimp only
  repeat' split
  all_goals exact ⟨rfl, rfl, rfl, rfl, rfl, rfl, rfl, rfl⟩

theorem checkNeutralReset_frame (cfg : Config) (st : EngineState) :
    (checkNeutralReset cfg st).price_history = st.price_history ∧
    (checkNeutralReset cfg st).bar_index = st.bar_index ∧
    (checkNeutralReset cfg st).trend_score = st.trend_score ∧
    (checkNeutralReset cfg st).last_breakout_bar = st.last_breakout_bar ∧
    (checkNeutralReset cfg st).last_breakout_direction = st.last_breakout_direction ∧
    (checkNeutralReset cfg st).last_retest_bar = st.last_retest_bar ∧
    (checkNeutralReset cfg st).last_signal_time = st.last_signal_time ∧
    (checkNeutralReset cfg st).breakout_signals = st.breakout_signals ∧
    (checkNeutralReset cfg st).retest_signals = st.retest_signals := by
  unfold checkNeutralReset
  dsimp only
  repeat' split
  all_goals exact ⟨rfl, rfl, rfl, rfl, rfl, rfl, rfl, rfl, rfl⟩

theorem checkBreakoutSignals_of_cooldown (cfg : Config) (st : EngineState)
    (data : Bar) (p rh rl : ℚ) (h : cooldownActive cfg st data.endTime = true) :
    checkBreakoutSignals cfg st data p rh rl = (st, []) := by
  unfold checkBreakoutSignals
  rw [if_pos h]

theorem checkBreakoutSignals_cases (cfg : Config) (st : EngineState) (data : Bar)
    (p rh rl : ℚ) :
    checkBreakoutSignals cfg st data p rh rl = (st, []) ∨
    ((checkBreakoutSignals cfg st data p rh rl).1.breakout_signals = st.breakout_signals + 1 ∧
     (checkBreakoutSignals cfg st data p rh rl).1.last_breakout_bar = some st.bar_index) := by
  unfold checkBreakoutSignals
  repeat' split
  all_goals
    first
      | exact Or.inl rfl
      | exact Or.inr (by rw [processBreakoutSignal_fst]; exact ⟨rfl, rfl⟩)

theorem checkRetestSignals_of_prior (cfg : Config) (st : EngineState) (data : Bar)
    (p rh rl q : ℚ) (lr lb : ℕ) (h1 : st.last_retest_bar = some lr)
    (h2 : st.last_breakout_bar = some lb) (h3 : lb ≤ lr) :
    checkRetestSignals cfg st data p rh rl q = (st, []) := by
  unfold checkRetestSignals
  rw [h2]
  dsimp only
  split
  · rfl
  split
  · rfl
  rw [h1]
  rw [if_pos (by simpa using h3)]

theorem checkRetestSignals_cases (cfg : Config) (st : EngineState) (data : Bar)
    (p rh rl q : ℚ) :
    checkRetestSignals cfg st data p rh rl q = (st, []) ∨
    ∃ lb, st.last_breakout_bar = some lb ∧
      st.last_breakout_direction ≠ .NEUTRAL ∧
      (cfg.retest_min_delay_bars : ℤ) ≤ (st.bar_index : ℤ) - (lb : ℤ) ∧
      (st.bar_index : ℤ) - (lb : ℤ) ≤ 60 ∧
      (∀ lr, st.last_retest_bar = some lr → lr < lb) ∧
      (checkRetestSignals cfg st data p rh rl q).1 =
        { st with last_retest_bar := some st.bar_index,
                  retest_signals := st.retest_signals + 1 } := by
  unfold checkRetestSignals
  cases hlb : st.last_breakout_bar with
  | none => exact Or.inl rfl
  | some lb =>
    dsimp only
    split
    · exact Or.inl rfl
    next hdir =>
      split
      next hwin => exact Or.inl rfl
      next hwin =>
        split
        next hguard => exact Or.inl rfl
        next hguard =>
          have hbounds : (cfg.retest_min_delay_bars : ℤ) ≤ (st.bar_index : ℤ) - (lb : ℤ) ∧
              (st.bar_index : ℤ) - (lb : ℤ) ≤ 60 := by
            constructor <;> omega
          have hprior : ∀ lr, st.last_retest_bar = some lr → lr < lb := by
            intro lr hlr
            rw [hlr] at hguard
            simp at hguard
            omega
          split
          next hcond =>
            exact Or.inr ⟨lb, rfl, hdir, hbounds.1, hbounds.2, hprior,
              by rw [processRetestSignal_fst, hlb]⟩
          next hcond =>
            split
            next hcond2 =>
              exact Or.inr ⟨lb, rfl, hdir, hbounds.1, hbounds.2, hprior,
                by rw [processRetestSignal_fst, hlb]⟩
            next hcond2 => exact Or.inl rfl

theorem checkNeutralReset_cases (cfg : Config) (st : EngineState) :
    checkNeutralReset cfg st = st ∨
    (st.active_direction ≠ .NEUTRAL ∧
     checkNeutralReset cfg st = { st with active_direction := .NEUTRAL }) := by
  unfold checkNeutralReset
  split
  next hdir =>
    split
    next lb heq =>
      dsimp only
      split
      next hgt => exact Or.inr ⟨hdir, rfl⟩
      next hgt => exact Or.inl rfl
    next heq => exact Or.inl rfl
  next hdir => exact Or.inl rfl

theorem checkRetestSignals_of_window_out (cfg : Config) (st : EngineState)
    (data : Bar) (p rh rl q : ℚ) (lb : ℕ) (h2 : st.last_breakout_bar = some lb)
    (h : (st.bar_index : ℤ) - (lb : ℤ) < (cfg.retest_min_delay_bars : ℤ) ∨
         (st.bar_index : ℤ) - (lb : ℤ) > 60) :
    checkRetestSignals cfg st data p rh rl q = (st, []) := by
  unfold checkRetestSignals
  rw [h2]
  dsimp only
  split
  all_goals first | rfl | rw [if_pos h]

theorem checkRetestSignals_of_no_breakout (cfg : Config) (st : EngineState)
    (data : Bar) (p rh rl q : ℚ)
    (h : st.last_breakout_bar = none ∨ st.last_breakout_direction = .NEUTRAL) :
    checkRetestSignals cfg st data p rh rl q = (st, []) := by
  unfold checkRetestSignals
  rcases h with h | h
  · rw [h]
  · cases hlb : st.last_breakout_bar with
    | none => rfl
    | some lb =>
      dsimp only
      rw [if_pos h]

theorem checkNeutralReset_of_recent (cfg : Config) (st : EngineState) (lb : ℕ)
    (h2 : st.last_breakout_bar = some lb)
    (h : (st.bar_index : ℤ) - (lb : ℤ) ≤ (cfg.neutral_reset_bars : ℤ)) :
    checkNeutralReset cfg st = st := by
  unfold checkNeutralReset
  split
  · rw [h2]
    dsimp only
    rw [if_neg (by omega)]
  · rfl

theorem checkNeutralReset_of_neutral (cfg : Config) (st : EngineState)
    (h : st.active_direction = .NEUTRAL) :
    checkNeutralReset cfg st = st := by
  unfold checkNeutralReset
  rw [if_neg (by simp [h])]

theorem calculateTrendScore_of_filled (cfg : Config) (st : EngineState)
    (ind : IndicatorSnapshot) (data : Bar)
    (h : cfg.displacement + 1 ≤ st.price_history.length) :
    calculateTrendScore cfg st ind data =
      some (clampScore cfg ((st.active_direction.value : ℚ) * W_BIAS +
        (scoreTk ind.tenkan ind.kijun
          + scoreChKijun data.close (st.price_history.getD cfg.displacement default).close
          + scoreChCloud data.close (max ind.senkouA ind.senkouB) (min ind.senkouA ind.senkouB))
        * volumeMultiplier cfg ind data)) := by
  unfold calculateTrendScore
  rw [if_pos (by omega)]
  cases hget : st.price_history.get? cfg.displacement with
  | none =>
    rw [List.get?_eq_none] at hget
    omega
  | some b =>
    dsimp only
    rw [List.getD_eq_get?, hget]
    rfl

theorem calculateTrendScore_of_underfilled (cfg : Config) (st : EngineState)
    (ind : IndicatorSnapshot) (data : Bar)
    (h : st.price_history.length < cfg.displacement) :
    calculateTrendScore cfg st ind data = some 0 := by
  unfold calculateTrendScore
  rw [if_neg (by omega)]

theorem clampScore_mem (cfg : Config) (x : ℚ) (h : 0 ≤ maxPossible cfg) :
    -maxPossible cfg ≤ clampScore cfg x ∧ clampScore cfg x ≤ maxPossible cfg := by
  unfold clampScore
  refine ⟨le_max_left _ _, max_le (by linarith) (min_le_left _ _)⟩

theorem onFourHourData_of_warming (cfg : Config) (st : EngineState) (inp : StepInput)
    (hw : inp.is_warming_up = true) :
    onFourHourData cfg st inp = (st, []) := by
  unfold onFourHourData
  rw [if_pos hw]

theorem onFourHourData_of_not_ready (cfg : Config) (st : EngineState) (inp : StepInput)
    (hw : inp.is_warming_up = false)
    (h : ¬inp.ind.ichimoku_ready = true ∨
         (updatedHistory cfg st inp.bar).length < cfg.displacement + 1) :
    onFourHourData cfg st inp =
      ({ st with bar_index := st.bar_index + 1,
                 price_history := updatedHistory cfg st inp.bar }, []) := by
  unfold onFourHourData
  rw [if_neg (by simp [hw])]
  dsimp only
  rw [if_pos h]

theorem onFourHourData_processed (cfg : Config) (st : EngineState) (inp : StepInput)
    (hw : inp.is_warming_up = false)
    (hready : inp.ind.ichimoku_ready = true)
    (hlen : cfg.displacement + 1 ≤ (updatedHistory cfg st inp.bar).length) :
    onFourHourData cfg st inp =
      (let ref_bar := (updatedHistory cfg st inp.bar).getD cfg.displacement default
       let p3 := checkBreakoutSignals cfg (preparedState cfg st inp) inp.bar inp.bar.close
         (refHighOf cfg ref_bar) (refLowOf cfg ref_bar)
       let p4 := if cfg.show_retest_signals then
           checkRetestSignals cfg p3.1 inp.bar inp.bar.close
             (refHighOf cfg ref_bar) (refLowOf cfg ref_bar) inp.portfolio_qty
         else (p3.1, [])
       (checkNeutralReset cfg p4.1, p3.2 ++ p4.2)) := by
  unfold onFourHourData preparedState
  rw [if_neg (by simp [hw])]
  dsimp only
  rw [if_neg (by simp [hready]; omega)]

theorem onFourHourData_processed_frame (cfg : Config) (st : EngineState) (inp : StepInput)
    (hw : inp.is_warming_up = false)
    (hready : inp.ind.ichimoku_ready = true)
    (hlen : cfg.displacement + 1 ≤ (updatedHistory cfg st inp.bar).length) :
    (onFourHourData cfg st inp).1.price_history = updatedHistory cfg st inp.bar ∧
    (onFourHourData cfg st inp).1.bar_index = st.bar_index + 1 ∧
    (onFourHourData cfg st inp).1.trend_score =
      (calculateTrendScore cfg
        { st with bar_index := st.bar_index + 1,
                  price_history := updatedHistory cfg st inp.bar }
        inp.ind inp.bar).getD st.trend_score := by
  rw [onFourHourData_processed cfg st inp hw hready hlen]
  dsimp only
  split
  · obtain ⟨nph, nbi, nts, -⟩ := checkNeutralReset_frame cfg _
    obtain ⟨rph, rbi, rts, -⟩ := checkRetestSignals_frame cfg _ _ _ _ _ _
    obtain ⟨bph, bbi, bts, -⟩ := checkBreakoutSignals_frame cfg _ _ _ _ _
    refine ⟨?_, ?_, ?_⟩
    · rw [nph, rph, bph]; rfl
    · rw [nbi, rbi, bbi]; rfl
    · rw [nts, rts, bts]; rfl
  · obtain ⟨nph, nbi, nts, -⟩ := checkNeutralReset_frame cfg _
    obtain ⟨bph, bbi, bts, -⟩ := checkBreakoutSignals_frame cfg _ _ _ _ _
    refine ⟨?_, ?_, ?_⟩
    · rw [nph, bph]; rfl
    · rw [nbi, bbi]; rfl
    · rw [nts, bts]; rfl

theorem reachable_underfilled_trend_score (cfg : Config) (st : EngineState)
    (h : Reachable cfg st) :
    st.price_history.length < cfg.displacement + 1 → st.trend_score = 0 := by
  induction h with
  | init => intro _; rfl
  | step st' inp hr ih =>
    intro hlen
    by_cases hw : inp.is_warming_up = true
    · rw [onFourHourData_of_warming cfg st' inp hw] at hlen ⊢
      exact ih hlen
    · replace hw : inp.is_warming_up = false := by simpa using hw
      by_cases hg : ¬inp.ind.ichimoku_ready = true ∨
          (updatedHistory cfg st' inp.bar).length < cfg.displacement + 1
      · rw [onFourHourData_of_not_ready cfg st' inp hw hg] at hlen ⊢
        dsimp only at hlen ⊢
        apply ih
        unfold updatedHistory at hlen
        rw [List.length_take] at hlen
        simp only [List.length_cons] at hlen
        omega
      · push_neg at hg
        obtain ⟨hready, hlen2⟩ := hg
        exfalso
        obtain ⟨hph, -, -⟩ := onFourHourData_processed_frame cfg st' inp hw
          (by simpa using hready) (by omega)
        rw [hph] at hlen
        omega

theorem reachable_run (cfg : Config) (st : EngineState) (l : List StepInput)
    (h : Reachable cfg st) : Reachable cfg (run cfg st l).1 := by
  induction l generalizing st with
  | nil => exact h
  | cons inp rest ih =>
    unfold run
    exact ih _ (Reachable.step st inp h)

/-- C1: on every bar processed after warm-up with the Ichimoku indicator
ready and the reference window filled, the trend score equals
`bias_score + (tk + ch_kijun + ch_cloud) * volume_multiplier` clamped
symmetrically, hence lies within `[-max_possible, max_possible]` with
`max_possible = 35 + (25+20+20) * (1 + (volume_cap - 1) * volume_sensitivity)`;
and on any processed bar whose reference window holds fewer than
`displacement + 1` bars the trend score equals 0.0. -/
theorem c1_trend_score_bounds (cfg : Config) (st : EngineState) (inp : StepInput)
    (hmax : 0 ≤ maxPossible cfg) (hst : Reachable cfg st)
    (hw : inp.is_warming_up = false) (hready : inp.ind.ichimoku_ready = true) :
    ((onFourHourData cfg st inp).1.price_history.length < cfg.displacement + 1 →
      (onFourHourData cfg st inp).1.trend_score = 0) ∧
    (cfg.displacement + 1 ≤ (updatedHistory cfg st inp.bar).length →
      (onFourHourData cfg st inp).1.trend_score =
        clampScore cfg ((st.active_direction.value : ℚ) * W_BIAS +
          (scoreTk inp.ind.tenkan inp.ind.kijun
            + scoreChKijun inp.bar.close
                ((updatedHistory cfg st inp.bar).getD cfg.displacement default).close
            + scoreChCloud inp.bar.close (max inp.ind.senkouA inp.ind.senkouB)
                (min inp.ind.senkouA inp.ind.senkouB))
          * volumeMultiplier cfg inp.ind inp.bar) ∧
      -maxPossible cfg ≤ (onFourHourData cfg st inp).1.trend_score ∧
      (onFourHourData cfg st inp).1.trend_score ≤ maxPossible cfg) := by
  constructor
  · exact reachable_underfilled_trend_score cfg _ (Reachable.step st inp hst)
  · intro hlen
    obtain ⟨-, -, hts⟩ := onFourHourData_processed_frame cfg st inp hw hready hlen
    rw [calculateTrendScore_of_filled cfg _ inp.ind inp.bar (by simpa using hlen)] at hts
    rw [Option.getD_some] at hts
    refine ⟨hts, ?_, ?_⟩
    · rw [hts]; exact (clampScore_mem cfg _ hmax).1
    · rw [hts]; exact (clampScore_mem cfg _ hmax).2

/-- Witness for C1: the default configuration, the reachable state after
the 26 flat warmup bars of trace 1, and bar 27 as input. -/
theorem c1_trend_score_bounds_witness :
    (0 : ℚ) ≤ maxPossible defaultConfig ∧
    (((onFourHourData defaultConfig (run defaultConfig initialState (t1Inputs 26)).1
        (mkInput (t1Bar 27))).1.price_history.length < defaultConfig.displacement + 1 →
      (onFourHourData defaultConfig (run defaultConfig initialState (t1Inputs 26)).1
        (mkInput (t1Bar 27))).1.trend_score = 0) ∧
     (defaultConfig.displacement + 1 ≤
        (updatedHistory defaultConfig (run defaultConfig initialState (t1Inputs 26)).1
          (mkInput (t1Bar 27)).bar).length →
      (onFourHourData defaultConfig (run defaultConfig initialState (t1Inputs 26)).1
        (mkInput (t1Bar 27))).1.trend_score =
        clampScore defaultConfig
          (((run defaultConfig initialState (t1Inputs 26)).1.active_direction.value : ℚ) * W_BIAS +
          (scoreTk (mkInput (t1Bar 27)).ind.tenkan (mkInput (t1Bar 27)).ind.kijun
            + scoreChKijun (mkInput (t1Bar 27)).bar.close
                ((updatedHistory defaultConfig (run defaultConfig initialState (t1Inputs 26)).1
                  (mkInput (t1Bar 27)).bar).getD defaultConfig.displacement default).close
            + scoreChCloud (mkInput (t1Bar 27)).bar.close
                (max (mkInput (t1Bar 27)).ind.senkouA (mkInput (t1Bar 27)).ind.senkouB)
                (min (mkInput (t1Bar 27)).ind.senkouA (mkInput (t1Bar 27)).ind.senkouB))
          * volumeMultiplier defaultConfig (mkInput (t1Bar 27)).ind (mkInput (t1Bar 27)).bar) ∧
      -maxPossible defaultConfig ≤
        (onFourHourData defaultConfig (run defaultConfig initialState (t1Inputs 26)).1
          (mkInput (t1Bar 27))).1.trend_score ∧
      (onFourHourData defaultConfig (run defaultConfig initialState (t1Inputs 26)).1
        (mkInput (t1Bar 27))).1.trend_score ≤ maxPossible defaultConfig)) :=
  ⟨by decide,
   c1_trend_score_bounds defaultConfig (run defaultConfig initialState (t1Inputs 26)).1
     (mkInput (t1Bar 27)) (by decide)
     (reachable_run defaultConfig initialState (t1Inputs 26) Reachable.init) rfl rfl⟩

theorem processBreakoutSignal_bullish (cfg : Config) (x : EngineState) (data : Bar) :
    processBreakoutSignal cfg x .BULLISH data =
      ({ x with
          active_direction := .BULLISH
          last_breakout_direction := .BULLISH
          last_breakout_bar := some x.bar_index
          last_signal_time := some data.endTime
          breakout_signals := x.breakout_signals + 1 },
       [.liquidate, .marketOrder cfg.position_size]) := rfl

theorem processBreakoutSignal_bearish (cfg : Config) (x : EngineState) (data : Bar) :
    processBreakoutSignal cfg x .BEARISH data =
      ({ x with
          active_direction := .BEARISH
          last_breakout_direction := .BEARISH
          last_breakout_bar := some x.bar_index
          last_signal_time := some data.endTime
          breakout_signals := x.breakout_signals + 1 },
       [.liquidate, .marketOrder (-cfg.position_size)]) := rfl

theorem checkBreakoutSignals_fires_bullish (cfg : Config) (x : EngineState)
    (data : Bar) (p rh rl : ℚ)
    (hcool : cooldownActive cfg x data.endTime = false)
    (hup : rh < p) (hdir : x.active_direction ≠ .BULLISH)
    (hconfirm : ¬cfg.confirm_on_close = true ∨ data.endTime % 60 = 0) :
    checkBreakoutSignals cfg x data p rh rl =
      ({ x with
          active_direction := .BULLISH
          last_breakout_direction := .BULLISH
          last_breakout_bar := some x.bar_index
          last_signal_time := some data.endTime
          breakout_signals := x.breakout_signals + 1 },
       [.liquidate, .marketOrder cfg.position_size]) := by
  unfold checkBreakoutSignals
  rw [if_neg (by simp [hcool]), if_pos ⟨hup, hdir⟩, if_pos hconfirm,
    processBreakoutSignal_bullish]

theorem checkBreakoutSignals_fires_bearish (cfg : Config) (x : EngineState)
    (data : Bar) (p rh rl : ℚ)
    (hcool : cooldownActive cfg x data.endTime = false)
    (hno : ¬(rh < p ∧ x.active_direction ≠ .BULLISH))
    (hdown : p < rl) (hdir : x.active_direction ≠ .BEARISH)
    (hconfirm : ¬cfg.confirm_on_close = true ∨ data.endTime % 60 = 0) :
    checkBreakoutSignals cfg x data p rh rl =
      ({ x with
          active_direction := .BEARISH
          last_breakout_direction := .BEARISH
          last_breakout_bar := some x.bar_index
          last_signal_time := some data.endTime
          breakout_signals := x.breakout_signals + 1 },
       [.liquidate, .marketOrder (-cfg.position_size)]) := by
  unfold checkBreakoutSignals
  rw [if_neg (by simp [hcool]), if_neg hno, if_pos ⟨hdown, hdir⟩, if_pos hconfirm,
    processBreakoutSignal_bearish]

/-- C2: on a processed bar (warm-up over, Ichimoku ready, window filled,
4-hour bar ending on the hour) with no cooldown active: a close above
the displacement-back reference high with the state not already BULLISH
fires a bullish breakout — setting the direction, recording the breakout
bar index and direction, stamping the signal time, incrementing the
breakout counter, and emitting a liquidate-then-enter order of the
configured `position_size` fraction; symmetrically for a close below the
reference low when not already BEARISH, with the entry negated. -/
theorem c2_breakout_fires (cfg : Config) (st : EngineState) (inp : StepInput)
    (hw : inp.is_warming_up = false) (hready : inp.ind.ichimoku_ready = true)
    (hlen : cfg.displacement + 1 ≤ (updatedHistory cfg st inp.bar).length)
    (hcool : cooldownActive cfg st inp.bar.endTime = false)
    (hconfirm : ¬cfg.confirm_on_close = true ∨ inp.bar.endTime % 60 = 0)
    (hdelay : 0 < cfg.retest_min_delay_bars)
    (hsane : refLowOf cfg ((updatedHistory cfg st inp.bar).getD cfg.displacement default) ≤
             refHighOf cfg ((updatedHistory cfg st inp.bar).getD cfg.displacement default)) :
    (refHighOf cfg ((updatedHistory cfg st inp.bar).getD cfg.displacement default) <
        inp.bar.close →
     st.active_direction ≠ .BULLISH →
       (onFourHourData cfg st inp).1.active_direction = .BULLISH ∧
       (onFourHourData cfg st inp).1.last_breakout_direction = .BULLISH ∧
       (onFourHourData cfg st inp).1.last_breakout_bar = some (st.bar_index + 1) ∧
       (onFourHourData cfg st inp).1.last_signal_time = some inp.bar.endTime ∧
       (onFourHourData cfg st inp).1.breakout_signals = st.breakout_signals + 1 ∧
       (onFourHourData cfg st inp).2 = [.liquidate, .marketOrder cfg.position_size]) ∧
    (inp.bar.close <
        refLowOf cfg ((updatedHistory cfg st inp.bar).getD cfg.displacement default) →
     st.active_direction ≠ .BEARISH →
       (onFourHourData cfg st inp).1.active_direction = .BEARISH ∧
       (onFourHourData cfg st inp).1.last_breakout_direction = .BEARISH ∧
       (onFourHourData cfg st inp).1.last_breakout_bar = some (st.bar_index + 1) ∧
       (onFourHourData cfg st inp).1.last_signal_time = some inp.bar.endTime ∧
       (onFourHourData cfg st inp).1.breakout_signals = st.breakout_signals + 1 ∧
       (onFourHourData cfg st inp).2 = [.liquidate, .marketOrder (-cfg.position_size)]) := by
  rw [onFourHourData_processed cfg st inp hw hready hlen]
  dsimp only
  constructor
  · intro hup hdir
    have hcool' : cooldownActive cfg (preparedState cfg st inp) inp.bar.endTime = false := hcool
    have hdir' : (preparedState cfg st inp).active_direction ≠ .BULLISH := hdir
    rw [checkBreakoutSignals_fires_bullish cfg (preparedState cfg st inp) inp.bar inp.bar.close
      (refHighOf cfg ((updatedHistory cfg st inp.bar).getD cfg.displacement default))
      (refLowOf cfg ((updatedHistory cfg st inp.bar).getD cfg.displacement default))
      hcool' hup hdir' hconfirm]
    dsimp only
    rw [checkRetestSignals_of_window_out cfg
      { preparedState cfg st inp with
        active_direction := .BULLISH
        last_breakout_direction := .BULLISH
        last_breakout_bar := some (preparedState cfg st inp).bar_index
        last_signal_time := some inp.bar.endTime
        breakout_signals := (preparedState cfg st inp).breakout_signals + 1 }
      inp.bar inp.bar.close
      (refHighOf cfg ((updatedHistory cfg st inp.bar).getD cfg.displacement default))
      (refLowOf cfg ((updatedHistory cfg st inp.bar).getD cfg.displacement default))
      inp.portfolio_qty (st.bar_index + 1) rfl
      (by dsimp only [preparedState]; left; push_cast; omega)]
    rw [ite_self]
    dsimp only
    rw [checkNeutralReset_of_recent cfg
      { preparedState cfg st inp with
        active_direction := .BULLISH
        last_breakout_direction := .BULLISH
        last_breakout_bar := some (preparedState cfg st inp).bar_index
        last_signal_time := some inp.bar.endTime
        breakout_signals := (preparedState cfg st inp).breakout_signals + 1 }
      (st.bar_index + 1) rfl (by dsimp only [preparedState]; push_cast; omega)]
    exact ⟨rfl, rfl, rfl, rfl, rfl, rfl⟩
  · intro hdown hdir
    have hno : ¬(refHighOf cfg ((updatedHistory cfg st inp.bar).getD cfg.displacement default) <
        inp.bar.close ∧ (preparedState cfg st inp).active_direction ≠ .BULLISH) := by
      rintro ⟨h1, -⟩
      exact absurd (lt_of_lt_of_le hdown hsane) (not_lt.mpr h1.le)
    have hcool' : cooldownActive cfg (preparedState cfg st inp) inp.bar.endTime = false := hcool
    have hdir' : (preparedState cfg st inp).active_direction ≠ .BEARISH := hdir
    rw [checkBreakoutSignals_fires_bearish cfg (preparedState cfg st inp) inp.bar inp.bar.close
      (refHighOf cfg ((updatedHistory cfg st inp.bar).getD cfg.displacement default))
      (refLowOf cfg ((updatedHistory cfg st inp.bar).getD cfg.displacement default))
      hcool' hno hdown hdir' hconfirm]
    dsimp only
    rw [checkRetestSignals_of_window_out cfg
      { preparedState cfg st inp with
        active_direction := .BEARISH
        last_breakout_direction := .BEARISH
        last_breakout_bar := some (preparedState cfg st inp).bar_index
        last_signal_time := some inp.bar.endTime
        breakout_signals := (preparedState cfg st inp).breakout_signals + 1 }
      inp.bar inp.bar.close
      (refHighOf cfg ((updatedHistory cfg st inp.bar).getD cfg.displacement default))
      (refLowOf cfg ((updatedHistory cfg st inp.bar).getD cfg.displacement default))
      inp.portfolio_qty (st.bar_index + 1) rfl
      (by dsimp only [preparedState]; left; push_cast; omega)]
    rw [ite_self]
    dsimp only
    rw [checkNeutralReset_of_recent cfg
      { preparedState cfg st inp with
        active_direction := .BEARISH
        last_breakout_direction := .BEARISH
        last_breakout_bar := some (preparedState cfg st inp).bar_index
        last_signal_time := some inp.bar.endTime
        breakout_signals := (preparedState cfg st inp).breakout_signals + 1 }
      (st.bar_index + 1) rfl (by dsimp only [preparedState]; push_cast; omega)]
    exact ⟨rfl, rfl, rfl, rfl, rfl, rfl⟩

/-- Witness for C2: bar 27 of trace 1 (close 105 against reference high
100) fires the bullish breakout from the reachable 26-bar flat state. -/
theorem c2_breakout_fires_witness :
    (onFourHourData defaultConfig (run defaultConfig initialState (t1Inputs 26)).1
        (mkInput (t1Bar 27))).1.active_direction = .BULLISH ∧
    (onFourHourData defaultConfig (run defaultConfig initialState (t1Inputs 26)).1
        (mkInput (t1Bar 27))).1.breakout_signals = 1 ∧
    (onFourHourData defaultConfig (run defaultConfig initialState (t1Inputs 26)).1
        (mkInput (t1Bar 27))).2 =
      [.liquidate, .marketOrder defaultConfig.position_size] := by
  obtain ⟨h1, -, -, -, h5, h6⟩ :=
    (c2_breakout_fires defaultConfig (run defaultConfig initialState (t1Inputs 26)).1
      (mkInput (t1Bar 27)) rfl rfl (by decide) (by decide) (by right; decide)
      (by decide) (by decide)).1 (by decide) (by decide)
  refine ⟨h1, ?_, h6⟩
  rw [h5]
  decide

/-- Counterexample to C3 as stated: in trace 1 the breakout is recorded
on bar 27 and a qualifying dip fires a retest on bar 29, exactly
`retest_min_delay_bars` (= 2) bars later — not *strictly* more than the
minimum delay, so the valid window's lower edge is inclusive. -/
theorem c3_retest_window_counterexample :
    (run defaultConfig initialState (t1Inputs 28)).1.retest_signals = 0 ∧
    (run defaultConfig initialState (t1Inputs 29)).1.retest_signals = 1 ∧
    (run defaultConfig initialState (t1Inputs 29)).1.last_retest_bar = some 29 ∧
    (run defaultConfig initialState (t1Inputs 29)).1.last_breakout_bar = some 27 ∧
    ¬(defaultConfig.retest_min_delay_bars < 29 - 27) := by
  decide

/-- C3 amended: on any processed bar a retest can fire only when the
number of bars elapsed since the recorded breakout lies in the
*inclusive* window `[retest_min_delay_bars, 60]` (and with the default
2-bar minimum delay a qualifying dip exactly 2 bars after the breakout
does fire, as in the spec's scenario). -/
theorem c3_retest_window (cfg : Config) (st : EngineState) (inp : StepInput)
    (h : (onFourHourData cfg st inp).1.retest_signals ≠ st.retest_signals) :
    ∃ lb, (onFourHourData cfg st inp).1.last_breakout_bar = some lb ∧
      (cfg.retest_min_delay_bars : ℤ) ≤ (st.bar_index + 1 : ℤ) - (lb : ℤ) ∧
      (st.bar_index + 1 : ℤ) - (lb : ℤ) ≤ 60 := by
  by_cases hw : inp.is_warming_up = true
  · rw [onFourHourData_of_warming cfg st inp hw] at h
    exact absurd rfl h
  replace hw : inp.is_warming_up = false := by simpa using hw
  by_cases hg : ¬inp.ind.ichimoku_ready = true ∨
      (updatedHistory cfg st inp.bar).length < cfg.displacement + 1
  · rw [onFourHourData_of_not_ready cfg st inp hw hg] at h
    exact absurd rfl h
  push_neg at hg
  obtain ⟨hready, hlen⟩ := hg
  replace hready : inp.ind.ichimoku_ready = true := by simpa using hready
  rw [onFourHourData_processed cfg st inp hw hready (by omega)] at h ⊢
  dsimp only at h ⊢
  split at h
  next hshow =>
    rw [if_pos hshow]
    obtain ⟨-, -, -, nlb, -, -, -, -, nrs⟩ := checkNeutralReset_frame cfg _
    rw [nrs] at h
    rw [nlb]
    rcases checkRetestSignals_cases cfg
        ((checkBreakoutSignals cfg (preparedState cfg st inp) inp.bar inp.bar.close
          (refHighOf cfg ((updatedHistory cfg st inp.bar).getD cfg.displacement default))
          (refLowOf cfg ((updatedHistory cfg st inp.bar).getD cfg.displacement default))).1)
        inp.bar inp.bar.close
        (refHighOf cfg ((updatedHistory cfg st inp.bar).getD cfg.displacement default))
        (refLowOf cfg ((updatedHistory cfg st inp.bar).getD cfg.displacement default))
        inp.portfolio_qty with heq | ⟨lb, hlb, -, hb1, hb2, -, hres⟩
    · rw [heq] at h
      obtain ⟨-, -, -, -, brs⟩ := checkBreakoutSignals_frame cfg _ _ _ _ _
      rw [brs] at h
      exact absurd rfl h
    · obtain ⟨-, bbi, -, -, -⟩ := checkBreakoutSignals_frame cfg (preparedState cfg st inp)
        inp.bar inp.bar.close
        (refHighOf cfg ((updatedHistory cfg st inp.bar).getD cfg.displacement default))
        (refLowOf cfg ((updatedHistory cfg st inp.bar).getD cfg.displacement default))
      rw [bbi] at hb1 hb2
      have hpb : (preparedState cfg st inp).bar_index = st.bar_index + 1 := rfl
      rw [hpb] at hb1 hb2
      refine ⟨lb, ?_, by omega, by omega⟩
      rw [hres]
      exact hlb
  next hshow =>
    obtain ⟨-, -, -, -, -, -, -, -, nrs⟩ := checkNeutralReset_frame cfg _
    rw [nrs] at h
    obtain ⟨-, -, -, -, brs⟩ := checkBreakoutSignals_frame cfg _ _ _ _ _
    rw [brs] at h
    exact absurd rfl h

/-- Witness for C3: the spec's scenario bar — a qualifying dip exactly 2
bars after the bar-27 breakout of trace 1 fires a retest, and the
theorem places it inside the inclusive window. -/
theorem c3_retest_window_witness :
    ∃ lb, (onFourHourData defaultConfig (run defaultConfig initialState (t1Inputs 28)).1
        (mkInput (t1Bar 29))).1.last_breakout_bar = some lb ∧
      (defaultConfig.retest_min_delay_bars : ℤ) ≤
        ((run defaultConfig initialState (t1Inputs 28)).1.bar_index + 1 : ℤ) - (lb : ℤ) ∧
      ((run defaultConfig initialState (t1Inputs 28)).1.bar_index + 1 : ℤ) - (lb : ℤ) ≤ 60 :=
  c3_retest_window defaultConfig (run defaultConfig initialState (t1Inputs 28)).1
    (mkInput (t1Bar 29)) (by decide)

theorem onFourHourData_breakout_cases (cfg : Config) (st : EngineState) (inp : StepInput) :
    ((onFourHourData cfg st inp).1.breakout_signals = st.breakout_signals ∧
     (onFourHourData cfg st inp).1.last_breakout_bar = st.last_breakout_bar ∧
     (onFourHourData cfg st inp).1.last_breakout_direction = st.last_breakout_direction ∧
     (onFourHourData cfg st inp).1.last_signal_time = st.last_signal_time) ∨
    ((onFourHourData cfg st inp).1.breakout_signals = st.breakout_signals + 1 ∧
     (onFourHourData cfg st inp).1.last_breakout_bar = some (st.bar_index + 1)) := by
  by_cases hw : inp.is_warming_up = true
  · rw [onFourHourData_of_warming cfg st inp hw]
    exact Or.inl ⟨rfl, rfl, rfl, rfl⟩
  replace hw : inp.is_warming_up = false := by simpa using hw
  by_cases hg : ¬inp.ind.ichimoku_ready = true ∨
      (updatedHistory cfg st inp.bar).length < cfg.displacement + 1
  · rw [onFourHourData_of_not_ready cfg st inp hw hg]
    exact Or.inl ⟨rfl, rfl, rfl, rfl⟩
  push_neg at hg
  obtain ⟨hready, hlen⟩ := hg
  rw [onFourHourData_processed cfg st inp hw (by simpa using hready) (by omega)]
  dsimp only
  split
  next hshow =>
    obtain ⟨-, -, -, nlb, nld, -, nlst, nbs, -⟩ := checkNeutralReset_frame cfg _
    rw [nbs, nlb, nld, nlst]
    obtain ⟨-, -, -, -, rlb, rld, rlst, rbs⟩ := checkRetestSignals_frame cfg _ _ _ _ _ _
    rw [rbs, rlb, rld, rlst]
    rcases checkBreakoutSignals_cases cfg (preparedState cfg st inp) inp.bar inp.bar.close
        (refHighOf cfg ((updatedHistory cfg st inp.bar).getD cfg.displacement default))
        (refLowOf cfg ((updatedHistory cfg st inp.bar).getD cfg.displacement default))
      with heq | ⟨hinc, hlb⟩
    · rw [heq]
      exact Or.inl ⟨rfl, rfl, rfl, rfl⟩
    · rw [hinc, hlb]
      exact Or.inr ⟨rfl, rfl⟩
  next hshow =>
    obtain ⟨-, -, -, nlb, nld, -, nlst, nbs, -⟩ := checkNeutralReset_frame cfg _
    rw [nbs, nlb, nld, nlst]
    rcases checkBreakoutSignals_cases cfg (preparedState cfg st inp) inp.bar inp.bar.close
        (refHighOf cfg ((updatedHistory cfg st inp.bar).getD cfg.displacement default))
        (refLowOf cfg ((updatedHistory cfg st inp.bar).getD cfg.displacement default))
      with heq | ⟨hinc, hlb⟩
    · rw [heq]
      exact Or.inl ⟨rfl, rfl, rfl, rfl⟩
    · rw [hinc, hlb]
      exact Or.inr ⟨rfl, rfl⟩

theorem onFourHourData_breakout_monotone (cfg : Config) (st : EngineState)
    (inp : StepInput) :
    st.breakout_signals ≤ (onFourHourData cfg st inp).1.breakout_signals := by
  rcases onFourHourData_breakout_cases cfg st inp with ⟨h, -⟩ | ⟨h, -⟩ <;> omega

theorem run_breakout_monotone (cfg : Config) (st : EngineState) (inps : List StepInput) :
    st.breakout_signals ≤ (run cfg st inps).1.breakout_signals := by
  induction inps generalizing st with
  | nil => exact Nat.le_refl _
  | cons inp rest ih =>
    unfold run
    exact le_trans (onFourHourData_breakout_monotone cfg st inp) (ih _)

theorem onFourHourData_retest_guarded (cfg : Config) (st : EngineState) (inp : StepInput)
    (lr lb : ℕ) (h1 : st.last_retest_bar = some lr) (h2 : st.last_breakout_bar = some lb)
    (h3 : lb ≤ lr)
    (hb : (onFourHourData cfg st inp).1.breakout_signals = st.breakout_signals) :
    (onFourHourData cfg st inp).1.retest_signals = st.retest_signals ∧
    (onFourHourData cfg st inp).1.last_retest_bar = some lr ∧
    (onFourHourData cfg st inp).1.last_breakout_bar = some lb := by
  by_cases hw : inp.is_warming_up = true
  · rw [onFourHourData_of_warming cfg st inp hw]
    exact ⟨rfl, h1, h2⟩
  replace hw : inp.is_warming_up = false := by simpa using hw
  by_cases hg : ¬inp.ind.ichimoku_ready = true ∨
      (updatedHistory cfg st inp.bar).length < cfg.displacement + 1
  · rw [onFourHourData_of_not_ready cfg st inp hw hg]
    exact ⟨rfl, h1, h2⟩
  push_neg at hg
  obtain ⟨hready, hlen⟩ := hg
  rw [onFourHourData_processed cfg st inp hw (by simpa using hready) (by omega)] at hb ⊢
  dsimp only at hb ⊢
  rcases checkBreakoutSignals_cases cfg (preparedState cfg st inp) inp.bar inp.bar.close
      (refHighOf cfg ((updatedHistory cfg st inp.bar).getD cfg.displacement default))
      (refLowOf cfg ((updatedHistory cfg st inp.bar).getD cfg.displacement default))
    with heq | ⟨hinc, -⟩
  · rw [heq] at hb ⊢
    dsimp only at hb ⊢
    have h1' : (preparedState cfg st inp).last_retest_bar = some lr := h1
    have h2' : (preparedState cfg st inp).last_breakout_bar = some lb := h2
    rw [checkRetestSignals_of_prior cfg (preparedState cfg st inp) inp.bar inp.bar.close
      (refHighOf cfg ((updatedHistory cfg st inp.bar).getD cfg.displacement default))
      (refLowOf cfg ((updatedHistory cfg st inp.bar).getD cfg.displacement default))
      inp.portfolio_qty lr lb h1' h2' h3]
    rw [ite_self]
    obtain ⟨-, -, -, nlb, -, nlr, -, -, nrs⟩ := checkNeutralReset_frame cfg
      (preparedState cfg st inp)
    exact ⟨nrs, nlr.trans h1', nlb.trans h2'⟩
  · exfalso
    split at hb
    next hshow =>
      obtain ⟨-, -, -, -, -, -, -, nbs, -⟩ := checkNeutralReset_frame cfg _
      rw [nbs] at hb
      obtain ⟨-, -, -, -, -, -, -, rbs⟩ := checkRetestSignals_frame cfg _ _ _ _ _ _
      rw [rbs, hinc] at hb
      have : (preparedState cfg st inp).breakout_signals = st.breakout_signals := rfl
      omega
    next hshow =>
      obtain ⟨-, -, -, -, -, -, -, nbs, -⟩ := checkNeutralReset_frame cfg _
      rw [nbs, hinc] at hb
      have : (preparedState cfg st inp).breakout_signals = st.breakout_signals := rfl
      omega

/-- C4: when a retest fires on a processed bar, the recorded retest bar
is the current bar index and the recorded breakout it confirms is at or
before it (`last_retest_bar ≥ last_breakout_bar`); and once a retest has
been honored for the current breakout, any further bars that record no
new breakout fire no further retest — at most one retest is honored per
breakout. -/
theorem c4_one_retest_per_breakout (cfg : Config) (st : EngineState) :
    (∀ inp, (onFourHourData cfg st inp).1.retest_signals ≠ st.retest_signals →
      (onFourHourData cfg st inp).1.last_retest_bar = some (st.bar_index + 1) ∧
      ∃ lb, (onFourHourData cfg st inp).1.last_breakout_bar = some lb ∧
        lb ≤ st.bar_index + 1) ∧
    (∀ inps lr lb, st.last_retest_bar = some lr → st.last_breakout_bar = some lb →
      lb ≤ lr →
      (run cfg st inps).1.breakout_signals = st.breakout_signals →
      (run cfg st inps).1.retest_signals = st.retest_signals) := by
  constructor
  · intro inp h
    by_cases hw : inp.is_warming_up = true
    · rw [onFourHourData_of_warming cfg st inp hw] at h
      exact absurd rfl h
    replace hw : inp.is_warming_up = false := by simpa using hw
    by_cases hg : ¬inp.ind.ichimoku_ready = true ∨
        (updatedHistory cfg st inp.bar).length < cfg.displacement + 1
    · rw [onFourHourData_of_not_ready cfg st inp hw hg] at h
      exact absurd rfl h
    push_neg at hg
    obtain ⟨hready, hlen⟩ := hg
    replace hready : inp.ind.ichimoku_ready = true := by simpa using hready
    rw [onFourHourData_processed cfg st inp hw hready (by omega)] at h ⊢
    dsimp only at h ⊢
    split at h
    next hshow =>
      rw [if_pos hshow]
      obtain ⟨-, -, -, nlb, -, nlr, -, -, nrs⟩ := checkNeutralReset_frame cfg _
      rw [nrs] at h
      rw [nlr, nlb]
      rcases checkRetestSignals_cases cfg
          ((checkBreakoutSignals cfg (preparedState cfg st inp) inp.bar inp.bar.close
            (refHighOf cfg ((updatedHistory cfg st inp.bar).getD cfg.displacement default))
            (refLowOf cfg ((updatedHistory cfg st inp.bar).getD cfg.displacement default))).1)
          inp.bar inp.bar.close
          (refHighOf cfg ((updatedHistory cfg st inp.bar).getD cfg.displacement default))
          (refLowOf cfg ((updatedHistory cfg st inp.bar).getD cfg.displacement default))
          inp.portfolio_qty with heq | ⟨lb, hlb, -, hb1, hb2, -, hres⟩
      · rw [heq] at h
        obtain ⟨-, -, -, -, brs⟩ := checkBreakoutSignals_frame cfg _ _ _ _ _
        rw [brs] at h
        exact absurd rfl h
      · obtain ⟨-, bbi, -, -, -⟩ := checkBreakoutSignals_frame cfg (preparedState cfg st inp)
          inp.bar inp.bar.close
          (refHighOf cfg ((updatedHistory cfg st inp.bar).getD cfg.displacement default))
          (refLowOf cfg ((updatedHistory cfg st inp.bar).getD cfg.displacement default))
        rw [bbi] at hb1 hb2
        have hpb : (preparedState cfg st inp).bar_index = st.bar_index + 1 := rfl
        rw [hpb] at hb1 hb2
        rw [hres]
        refine ⟨?_, lb, hlb, by omega⟩
        rw [bbi, hpb]
    next hshow =>
      obtain ⟨-, -, -, -, -, -, -, -, nrs⟩ := checkNeutralReset_frame cfg _
      rw [nrs] at h
      obtain ⟨-, -, -, -, brs⟩ := checkBreakoutSignals_frame cfg _ _ _ _ _
      rw [brs] at h
      exact absurd rfl h
  · intro inps
    induction inps generalizing st with
    | nil => intro lr lb _ _ _ _; rfl
    | cons inp rest ih =>
      intro lr lb h1 h2 h3 hb
      have hc : (run cfg st (inp :: rest)).1 =
          (run cfg (onFourHourData cfg st inp).1 rest).1 := rfl
      have hbrk : (run cfg st (inp :: rest)).1.breakout_signals =
          (run cfg (onFourHourData cfg st inp).1 rest).1.breakout_signals := by
        rw [hc]
      have hret : (run cfg st (inp :: rest)).1.retest_signals =
          (run cfg (onFourHourData cfg st inp).1 rest).1.retest_signals := by
        rw [hc]
      have hm1 := onFourHourData_breakout_monotone cfg st inp
      have hm2 := run_breakout_monotone cfg (onFourHourData cfg st inp).1 rest
      have hstep : (onFourHourData cfg st inp).1.breakout_signals = st.breakout_signals := by
        rw [hbrk] at hb
        omega
      obtain ⟨hq1, hq2, hq3⟩ := onFourHourData_retest_guarded cfg st inp lr lb h1 h2 h3 hstep
      rw [hret, ih _ lr lb hq2 hq3 h3 (by rw [hbrk] at hb; omega), hq1]

/-- Witness for C4: the bar-29 retest of trace 1 records retest bar 29
for the bar-27 breakout, and the six following bars (including the
second qualifying dip on bar 35) fire no further retest. -/
theorem c4_one_retest_per_breakout_witness :
    ((onFourHourData defaultConfig (run defaultConfig initialState (t1Inputs 28)).1
        (mkInput (t1Bar 29))).1.last_retest_bar =
      some ((run defaultConfig initialState (t1Inputs 28)).1.bar_index + 1) ∧
     ∃ lb, (onFourHourData defaultConfig (run defaultConfig initialState (t1Inputs 28)).1
        (mkInput (t1Bar 29))).1.last_breakout_bar = some lb ∧
        lb ≤ (run defaultConfig initialState (t1Inputs 28)).1.bar_index + 1) ∧
    (run defaultConfig (run defaultConfig initialState (t1Inputs 29)).1 t1Tail).1.retest_signals =
      (run defaultConfig initialState (t1Inputs 29)).1.retest_signals :=
  ⟨(c4_one_retest_per_breakout defaultConfig
      (run defaultConfig initialState (t1Inputs 28)).1).1 (mkInput (t1Bar 29)) (by decide),
   (c4_one_retest_per_breakout defaultConfig
      (run defaultConfig initialState (t1Inputs 29)).1).2 t1Tail 29 27
     (by decide) (by decide) (by decide) (by decide)⟩

/-- Counterexample to C5 as stated: in trace 2 the bar-27 breakout
breaks the reference level 100 (the displacement-back bar's high at
breakout time), yet the bar-30 retest fires against the *current*
displacement-back reference 102 (bar 4's high) although bar 30's low
101.5 never dips to within one `epsilon` of the breakout level 100. -/
theorem c5_retest_reference_counterexample :
    (run defaultConfig initialState (t2Inputs 27)).1.last_breakout_bar = some 27 ∧
    refHighOf defaultConfig
      ((run defaultConfig initialState (t2Inputs 27)).1.price_history.getD
        defaultConfig.displacement default) = 100 ∧
    (run defaultConfig initialState (t2Inputs 29)).1.retest_signals = 0 ∧
    (run defaultConfig initialState (t2Inputs 30)).1.retest_signals = 1 ∧
    ¬((t2Bar 30).low ≤ 100 + defaultConfig.epsilon) := by
  decide

/-- C5 amended: inside the valid retest window after a BULLISH breakout
with no retest yet honored for it, a retest fires exactly when the bar's
low is at or below the *current bar's* displacement-back reference high
plus one minimum-price-increment of tolerance while the close is at or
above that reference high; symmetrically for BEARISH against the current
reference low minus the tolerance.  (The source recomputes the reference
each bar; it coincides with the breakout-time level only when that part
of the window is unchanged.) -/
theorem c5_retest_conditions (cfg : Config) (st : EngineState) (data : Bar)
    (rh rl q : ℚ) (lb : ℕ)
    (h2 : st.last_breakout_bar = some lb)
    (hwin1 : (cfg.retest_min_delay_bars : ℤ) ≤ (st.bar_index : ℤ) - (lb : ℤ))
    (hwin2 : (st.bar_index : ℤ) - (lb : ℤ) ≤ 60)
    (hguard : ∀ lr, st.last_retest_bar = some lr → lr < lb) :
    (st.last_breakout_direction = .BULLISH →
      ((checkRetestSignals cfg st data data.close rh rl q).1.retest_signals =
          st.retest_signals + 1 ↔
        (data.low ≤ rh + cfg.epsilon ∧ data.close ≥ rh))) ∧
    (st.last_breakout_direction = .BEARISH →
      ((checkRetestSignals cfg st data data.close rh rl q).1.retest_signals =
          st.retest_signals + 1 ↔
        (data.high ≥ rl - cfg.epsilon ∧ data.close ≤ rl))) := by
  have hg : ¬((match st.last_retest_bar with
      | some lr => decide (lr ≥ lb)
      | none => false) = true) := by
    cases hlr : st.last_retest_bar with
    | none => simp
    | some lr =>
      have := hguard lr hlr
      simp
      omega
  unfold checkRetestSignals
  rw [h2]
  dsimp only
  constructor
  · intro hdir
    rw [if_neg (by rw [hdir]; intro hc; cases hc)]
    rw [if_neg (by omega)]
    rw [if_neg hg]
    split
    next hcond =>
      rw [processRetestSignal_fst]
      exact iff_of_true rfl ⟨hcond.2.1, hcond.2.2⟩
    next hcond =>
      rw [if_neg (by rw [hdir]; rintro ⟨hd, -⟩; cases hd)]
      constructor
      · intro habs
        exact absurd (show st.retest_signals = st.retest_signals + 1 from habs) (by omega)
      · intro hpq
        exact absurd ⟨hdir, hpq.1, hpq.2⟩ hcond
  · intro hdir
    rw [if_neg (by rw [hdir]; intro hc; cases hc)]
    rw [if_neg (by omega)]
    rw [if_neg hg]
    rw [if_neg (by rw [hdir]; rintro ⟨hd, -⟩; cases hd)]
    split
    next hcond =>
      rw [processRetestSignal_fst]
      exact iff_of_true rfl ⟨hcond.2.1, hcond.2.2⟩
    next hcond =>
      constructor
      · intro habs
        exact absurd (show st.retest_signals = st.retest_signals + 1 from habs) (by omega)
      · intro hpq
        exact absurd ⟨hdir, hpq.1, hpq.2⟩ hcond

/-- Witness for C5: bar 30 of trace 2 fires a bullish retest against the
current reference high 102 from a post-breakout probe state. -/
theorem c5_retest_conditions_witness :
    (checkRetestSignals defaultConfig retestProbeState (t2Bar 30) (t2Bar 30).close
      102 100 0).1.retest_signals = retestProbeState.retest_signals + 1 :=
  ((c5_retest_conditions defaultConfig retestProbeState (t2Bar 30) 102 100 0 27
      rfl (by decide) (by decide) (fun lr h => by cases h)).1 rfl).mpr (by decide)

/-- C6: retest detection is only evaluated when a breakout is active
with a non-NEUTRAL direction — with no recorded breakout or a NEUTRAL
recorded direction, `CheckRetestSignals` returns immediately with no
state change and no order; and a full processed bar starting from such a
state leaves the retest counter and recorded retest bar untouched. -/
theorem c6_retest_requires_breakout (cfg : Config) (st : EngineState) :
    (∀ data p rh rl q,
      st.last_breakout_bar = none ∨ st.last_breakout_direction = .NEUTRAL →
      checkRetestSignals cfg st data p rh rl q = (st, [])) ∧
    (∀ inp, 0 < cfg.retest_min_delay_bars →
      st.last_breakout_bar = none ∨ st.last_breakout_direction = .NEUTRAL →
      (onFourHourData cfg st inp).1.retest_signals = st.retest_signals ∧
      (onFourHourData cfg st inp).1.last_retest_bar = st.last_retest_bar) := by
  constructor
  · intro data p rh rl q h
    exact checkRetestSignals_of_no_breakout cfg st data p rh rl q h
  · intro inp hdelay h
    by_cases hw : inp.is_warming_up = true
    · rw [onFourHourData_of_warming cfg st inp hw]
      exact ⟨rfl, rfl⟩
    replace hw : inp.is_warming_up = false := by simpa using hw
    by_cases hg : ¬inp.ind.ichimoku_ready = true ∨
        (updatedHistory cfg st inp.bar).length < cfg.displacement + 1
    · rw [onFourHourData_of_not_ready cfg st inp hw hg]
      exact ⟨rfl, rfl⟩
    push_neg at hg
    obtain ⟨hready, hlen⟩ := hg
    rw [onFourHourData_processed cfg st inp hw (by simpa using hready) (by omega)]
    dsimp only
    rcases checkBreakoutSignals_cases cfg (preparedState cfg st inp) inp.bar inp.bar.close
        (refHighOf cfg ((updatedHistory cfg st inp.bar).getD cfg.displacement default))
        (refLowOf cfg ((updatedHistory cfg st inp.bar).getD cfg.displacement default))
      with heq | ⟨hinc, hlb⟩
    · rw [heq]
      dsimp only
      have h' : (preparedState cfg st inp).last_breakout_bar = none ∨
          (preparedState cfg st inp).last_breakout_direction = .NEUTRAL := h
      rw [checkRetestSignals_of_no_breakout cfg (preparedState cfg st inp) inp.bar
        inp.bar.close
        (refHighOf cfg ((updatedHistory cfg st inp.bar).getD cfg.displacement default))
        (refLowOf cfg ((updatedHistory cfg st inp.bar).getD cfg.displacement default))
        inp.portfolio_qty h']
      rw [ite_self]
      obtain ⟨-, -, -, -, -, nlr, -, -, nrs⟩ := checkNeutralReset_frame cfg
        (preparedState cfg st inp)
      exact ⟨nrs.trans rfl, nlr.trans rfl⟩
    · obtain ⟨-, bbi, -, blr, brs⟩ := checkBreakoutSignals_frame cfg
        (preparedState cfg st inp) inp.bar inp.bar.close
        (refHighOf cfg ((updatedHistory cfg st inp.bar).getD cfg.displacement default))
        (refLowOf cfg ((updatedHistory cfg st inp.bar).getD cfg.displacement default))
      rw [checkRetestSignals_of_window_out cfg
        ((checkBreakoutSignals cfg (preparedState cfg st inp) inp.bar inp.bar.close
          (refHighOf cfg ((updatedHistory cfg st inp.bar).getD cfg.displacement default))
          (refLowOf cfg ((updatedHistory cfg st inp.bar).getD cfg.displacement default))).1)
        inp.bar inp.bar.close
        (refHighOf cfg ((updatedHistory cfg st inp.bar).getD cfg.displacement default))
        (refLowOf cfg ((updatedHistory cfg st inp.bar).getD cfg.displacement default))
        inp.portfolio_qty (st.bar_index + 1) hlb
        (by
          rw [bbi]
          have hpb : (preparedState cfg st inp).bar_index = st.bar_index + 1 := rfl
          rw [hpb]
          left
          push_cast
          omega)]
      rw [ite_self]
      obtain ⟨-, -, -, -, -, nlr, -, -, nrs⟩ := checkNeutralReset_frame cfg _
      rw [nrs, nlr, brs, blr]
      exact ⟨rfl, rfl⟩

/-- Witness for C6: at startup (no recorded breakout) retest detection
is a no-op, and the fully processed bar 27 of the flat trace changes no
retest state. -/
theorem c6_retest_requires_breakout_witness :
    checkRetestSignals defaultConfig initialState (flatBar 1) 100 100 100 0 =
      (initialState, []) ∧
    (onFourHourData defaultConfig (run defaultConfig initialState (flatInputs 26)).1
        (mkInput (flatBar 27))).1.retest_signals =
      (run defaultConfig initialState (flatInputs 26)).1.retest_signals ∧
    (onFourHourData defaultConfig (run defaultConfig initialState (flatInputs 26)).1
        (mkInput (flatBar 27))).1.last_retest_bar =
      (run defaultConfig initialState (flatInputs 26)).1.last_retest_bar :=
  ⟨(c6_retest_requires_breakout defaultConfig initialState).1 (flatBar 1) 100 100 100 0
      (Or.inl rfl),
   (c6_retest_requires_breakout defaultConfig
      (run defaultConfig initialState (flatInputs 26)).1).2 (mkInput (flatBar 27))
     (by decide) (Or.inl (by decide))⟩

/-- C7: the neutral reset leaves the direction NEUTRAL exactly when it
already was NEUTRAL or strictly more than `neutral_reset_bars` bars have
elapsed since the recorded breakout; it is a no-op whenever the elapsed
count is within the threshold (as after any new breakout, which resets
the count); when it fires it only forces the direction to NEUTRAL; and
re-running it is a no-op (idempotence). -/
theorem c7_neutral_reset (cfg : Config) (st : EngineState) :
    ((checkNeutralReset cfg st).active_direction = .NEUTRAL ↔
      (st.active_direction = .NEUTRAL ∨
       ∃ lb, st.last_breakout_bar = some lb ∧
         (cfg.neutral_reset_bars : ℤ) < (st.bar_index : ℤ) - (lb : ℤ))) ∧
    (∀ lb, st.last_breakout_bar = some lb →
      (st.bar_index : ℤ) - (lb : ℤ) ≤ (cfg.neutral_reset_bars : ℤ) →
      checkNeutralReset cfg st = st) ∧
    (st.active_direction ≠ .NEUTRAL →
      (∃ lb, st.last_breakout_bar = some lb ∧
        (cfg.neutral_reset_bars : ℤ) < (st.bar_index : ℤ) - (lb : ℤ)) →
      checkNeutralReset cfg st = { st with active_direction := .NEUTRAL }) ∧
    checkNeutralReset cfg (checkNeutralReset cfg st) = checkNeutralReset cfg st := by
  refine ⟨?_, ?_, ?_, ?_⟩
  · unfold checkNeutralReset
    split
    next hdir =>
      split
      next lb heq =>
        dsimp only
        split
        next hgt =>
          exact iff_of_true rfl (Or.inr ⟨lb, heq, hgt⟩)
        next hgt =>
          constructor
          · exact fun hA => Or.inl hA
          · rintro (hA | ⟨lb', heq', hgt'⟩)
            · exact hA
            · rw [heq] at heq'
              cases heq'
              exact absurd hgt' hgt
      next heq =>
        constructor
        · exact fun hA => Or.inl hA
        · rintro (hA | ⟨lb', heq', -⟩)
          · exact hA
          · rw [heq] at heq'
            cases heq'
    next hdir =>
      have hA : st.active_direction = .NEUTRAL := by
        by_contra hc
        exact hdir hc
      exact iff_of_true hA (Or.inl hA)
  · intro lb heq hle
    exact checkNeutralReset_of_recent cfg st lb heq hle
  · rintro hdir ⟨lb, heq, hgt⟩
    unfold checkNeutralReset
    rw [if_pos hdir, heq]
    dsimp only
    rw [if_pos hgt]
  · rcases checkNeutralReset_cases cfg st with heq | ⟨-, heq⟩
    · rw [heq]
      exact heq
    · rw [heq]
      exact checkNeutralReset_of_neutral cfg _ rfl

/-- Witness for C7: a BULLISH state 61 bars after its breakout resets to
NEUTRAL, a state only 1 bar after a breakout is untouched, and the reset
is idempotent there. -/
theorem c7_neutral_reset_witness :
    checkNeutralReset defaultConfig staleProbeState =
      { staleProbeState with active_direction := .NEUTRAL } ∧
    checkNeutralReset defaultConfig retestProbeState = retestProbeState ∧
    checkNeutralReset defaultConfig (checkNeutralReset defaultConfig staleProbeState) =
      checkNeutralReset defaultConfig staleProbeState :=
  ⟨(c7_neutral_reset defaultConfig staleProbeState).2.2.1 (by decide)
      ⟨10, rfl, by decide⟩,
   (c7_neutral_reset defaultConfig retestProbeState).2.1 27 rfl (by decide),
   (c7_neutral_reset defaultConfig staleProbeState).2.2.2⟩

/-- C8: whenever the bar's end time is within `min_signal_interval` of
the last recorded signal timestamp, breakout evaluation is suppressed
entirely — `CheckBreakoutSignals` returns with no state change and no
order even when the price conditions hold, a fully processed bar leaves
all breakout bookkeeping (counter, bar, direction, signal time)
unchanged, and the simpler strategy's `CheckForSignals` likewise returns
with no state change and no order. -/
theorem c8_cooldown_suppresses (cfg : Config) (st : EngineState)
    (scfg : SimpleConfig) (sst : SimpleState) :
    (∀ data p rh rl, cooldownActive cfg st data.endTime = true →
      checkBreakoutSignals cfg st data p rh rl = (st, [])) ∧
    (∀ inp, cooldownActive cfg st inp.bar.endTime = true →
      (onFourHourData cfg st inp).1.breakout_signals = st.breakout_signals ∧
      (onFourHourData cfg st inp).1.last_breakout_bar = st.last_breakout_bar ∧
      (onFourHourData cfg st inp).1.last_breakout_direction = st.last_breakout_direction ∧
      (onFourHourData cfg st inp).1.last_signal_time = st.last_signal_time) ∧
    (∀ data ind holdings ts, sst.last_signal_time = some ts →
      data.endTime - ts < scfg.min_signal_interval →
      checkForSignals scfg sst data ind holdings = (sst, [])) := by
  refine ⟨?_, ?_, ?_⟩
  · intro data p rh rl hcool
    exact checkBreakoutSignals_of_cooldown cfg st data p rh rl hcool
  · intro inp hcool
    by_cases hw : inp.is_warming_up = true
    · rw [onFourHourData_of_warming cfg st inp hw]
      exact ⟨rfl, rfl, rfl, rfl⟩
    replace hw : inp.is_warming_up = false := by simpa using hw
    by_cases hg : ¬inp.ind.ichimoku_ready = true ∨
        (updatedHistory cfg st inp.bar).length < cfg.displacement + 1
    · rw [onFourHourData_of_not_ready cfg st inp hw hg]
      exact ⟨rfl, rfl, rfl, rfl⟩
    push_neg at hg
    obtain ⟨hready, hlen⟩ := hg
    rw [onFourHourData_processed cfg st inp hw (by simpa using hready) (by omega)]
    dsimp only
    have hcool' : cooldownActive cfg (preparedState cfg st inp) inp.bar.endTime = true :=
      hcool
    rw [checkBreakoutSignals_of_cooldown cfg (preparedState cfg st inp) inp.bar
      inp.bar.close
      (refHighOf cfg ((updatedHistory cfg st inp.bar).getD cfg.displacement default))
      (refLowOf cfg ((updatedHistory cfg st inp.bar).getD cfg.displacement default))
      hcool']
    dsimp only
    split
    · obtain ⟨-, -, -, nlb, nld, -, nlst, nbs, -⟩ := checkNeutralReset_frame cfg _
      rw [nbs, nlb, nld, nlst]
      obtain ⟨-, -, -, -, rlb, rld, rlst, rbs⟩ := checkRetestSignals_frame cfg _ _ _ _ _ _
      rw [rbs, rlb, rld, rlst]
      exact ⟨rfl, rfl, rfl, rfl⟩
    · obtain ⟨-, -, -, nlb, nld, -, nlst, nbs, -⟩ := checkNeutralReset_frame cfg _
      rw [nbs, nlb, nld, nlst]
      exact ⟨rfl, rfl, rfl, rfl⟩
  · intro data ind holdings ts hts hlt
    unfold checkForSignals
    rw [if_pos (Or.inr (Or.inr (Or.inr (by rw [hts]; simpa using hlt))))]

/-- Witness for C8: one bar after the trace-1 bullish breakout, a
bearish-qualifying bar (close 90 below reference low 100) arrives 240
minutes into the 720-minute cooldown and is suppressed in both
strategies. -/
theorem c8_cooldown_suppresses_witness :
    checkBreakoutSignals defaultConfig (run defaultConfig initialState (t1Inputs 27)).1
      bearProbeBar 90 100 100 = ((run defaultConfig initialState (t1Inputs 27)).1, []) ∧
    (onFourHourData defaultConfig (run defaultConfig initialState (t1Inputs 27)).1
        (mkInput bearProbeBar)).1.breakout_signals =
      (run defaultConfig initialState (t1Inputs 27)).1.breakout_signals ∧
    checkForSignals defaultSimpleConfig simpleProbeState bearProbeBar
      simpleProbeSnapshot 0 = (simpleProbeState, []) :=
  ⟨((c8_cooldown_suppresses defaultConfig (run defaultConfig initialState (t1Inputs 27)).1
      defaultSimpleConfig simpleProbeState).1 bearProbeBar 90 100 100 (by decide)),
   ((c8_cooldown_suppresses defaultConfig (run defaultConfig initialState (t1Inputs 27)).1
      defaultSimpleConfig simpleProbeState).2.1 (mkInput bearProbeBar) (by decide)).1,
   ((c8_cooldown_suppresses defaultConfig (run defaultConfig initialState (t1Inputs 27)).1
      defaultSimpleConfig simpleProbeState).2.2 bearProbeBar simpleProbeSnapshot 0 6480
     rfl (by decide))⟩

theorem checkBreakoutSignals_of_no_cross (cfg : Config) (x : EngineState) (data : Bar)
    (p rh rl : ℚ) (hup : ¬rh < p) (hdown : ¬p < rl) :
    checkBreakoutSignals cfg x data p rh rl = (x, []) := by
  unfold checkBreakoutSignals
  split
  · rfl
  rw [if_neg (by rintro ⟨hc, -⟩; exact hup hc),
    if_neg (by rintro ⟨hc, -⟩; exact hdown hc)]

theorem onFourHourData_nocross (cfg : Config) (st : EngineState) (inp : StepInput)
    (h1 : st.active_direction = .NEUTRAL) (h2 : st.last_breakout_bar = none)
    (hnc : noCross cfg st inp = true) :
    (onFourHourData cfg st inp).1.active_direction = .NEUTRAL ∧
    (onFourHourData cfg st inp).1.last_breakout_bar = none ∧
    (onFourHourData cfg st inp).2 = [] := by
  by_cases hw : inp.is_warming_up = true
  · rw [onFourHourData_of_warming cfg st inp hw]
    exact ⟨h1, h2, rfl⟩
  replace hw : inp.is_warming_up = false := by simpa using hw
  by_cases hg : ¬inp.ind.ichimoku_ready = true ∨
      (updatedHistory cfg st inp.bar).length < cfg.displacement + 1
  · rw [onFourHourData_of_not_ready cfg st inp hw hg]
    exact ⟨h1, h2, rfl⟩
  push_neg at hg
  obtain ⟨hready, hlen⟩ := hg
  unfold noCross at hnc
  rw [if_neg (by omega)] at hnc
  have hpc := of_decide_eq_true hnc
  rw [onFourHourData_processed cfg st inp hw (by simpa using hready) (by omega)]
  dsimp only
  rw [checkBreakoutSignals_of_no_cross cfg (preparedState cfg st inp) inp.bar
    inp.bar.close
    (refHighOf cfg ((updatedHistory cfg st inp.bar).getD cfg.displacement default))
    (refLowOf cfg ((updatedHistory cfg st inp.bar).getD cfg.displacement default))
    (not_lt.mpr hpc.1) (not_lt.mpr hpc.2)]
  dsimp only
  have h2' : (preparedState cfg st inp).last_breakout_bar = none ∨
      (preparedState cfg st inp).last_breakout_direction = .NEUTRAL := Or.inl h2
  rw [checkRetestSignals_of_no_breakout cfg (preparedState cfg st inp) inp.bar
    inp.bar.close
    (refHighOf cfg ((updatedHistory cfg st inp.bar).getD cfg.displacement default))
    (refLowOf cfg ((updatedHistory cfg st inp.bar).getD cfg.displacement default))
    inp.portfolio_qty h2']
  rw [ite_self]
  rw [checkNeutralReset_of_neutral cfg (preparedState cfg st inp) h1]
  exact ⟨h1, h2, rfl⟩

theorem run_nocross (cfg : Config) (st : EngineState) (inps : List StepInput)
    (h1 : st.active_direction = .NEUTRAL) (h2 : st.last_breakout_bar = none)
    (hnc : noCrossTrace cfg st inps = true) :
    (run cfg st inps).1.active_direction = .NEUTRAL ∧
    (run cfg st inps).1.last_breakout_bar = none ∧
    (run cfg st inps).2 = [] := by
  induction inps generalizing st with
  | nil => exact ⟨h1, h2, rfl⟩
  | cons inp rest ih =>
    unfold noCrossTrace at hnc
    rw [Bool.and_eq_true] at hnc
    obtain ⟨ha1, ha2, ha3⟩ := onFourHourData_nocross cfg st inp h1 h2 hnc.1
    obtain ⟨hb1, hb2, hb3⟩ := ih (onFourHourData cfg st inp).1 ha1 ha2 hnc.2
    have hc : (run cfg st (inp :: rest)).1 =
        (run cfg (onFourHourData cfg st inp).1 rest).1 := rfl
    have he : (run cfg st (inp :: rest)).2 =
        (onFourHourData cfg st inp).2 ++ (run cfg (onFourHourData cfg st inp).1 rest).2 :=
      rfl
    refine ⟨?_, ?_, ?_⟩
    · rw [hc]; exact hb1
    · rw [hc]; exact hb2
    · rw [he, ha3, hb3]; rfl

theorem noCrossTrace_take (cfg : Config) (st : EngineState) (inps : List StepInput)
    (n : ℕ) (h : noCrossTrace cfg st inps = true) :
    noCrossTrace cfg st (inps.take n) = true := by
  induction inps generalizing st n with
  | nil => rw [List.take_nil]; rfl
  | cons inp rest ih =>
    cases n with
    | zero => rfl
    | succ m =>
      rw [List.take_succ_cons]
      unfold noCrossTrace at h ⊢
      rw [Bool.and_eq_true] at h ⊢
      exact ⟨h.1, ih _ m h.2⟩

/-- C9: starting from the engine's startup state (direction NEUTRAL, no
recorded breakout), over any sequence of bars in which no close strictly
exceeds its reference high or falls strictly below its reference low,
the active direction stays NEUTRAL after every prefix of the run and no
order intent is ever emitted. -/
theorem c9_no_cross_stays_neutral (cfg : Config) (st : EngineState)
    (inps : List StepInput)
    (h1 : st.active_direction = .NEUTRAL) (h2 : st.last_breakout_bar = none)
    (hnc : noCrossTrace cfg st inps = true) :
    (∀ n, (run cfg st (inps.take n)).1.active_direction = .NEUTRAL) ∧
    (run cfg st inps).2 = [] := by
  constructor
  · intro n
    exact (run_nocross cfg st (inps.take n) h1 h2
      (noCrossTrace_take cfg st inps n hnc)).1
  · exact (run_nocross cfg st inps h1 h2 hnc).2.2

/-- Witness for C9: thirty flat bars pinned at 100 never cross the
reference levels; the engine stays NEUTRAL throughout and emits
nothing. -/
theorem c9_no_cross_stays_neutral_witness :
    (∀ n, (run defaultConfig initialState ((flatInputs 30).take n)).1.active_direction =
      .NEUTRAL) ∧
    (run defaultConfig initialState (flatInputs 30)).2 = [] :=
  c9_no_cross_stays_neutral defaultConfig initialState (flatInputs 30) rfl rfl (by decide)

/-- C10: firing a retest updates only `last_retest_bar` and the retest
counter — in particular `last_signal_time` is untouched, so a retest
neither starts nor extends the breakout cooldown; concretely, in trace 3
the bar-29 retest leaves the cooldown anchored at the bar-27 breakout
time, and a qualifying bearish breakout fires on bar 30, the very next
bar after the retest. -/
theorem c10_retest_frame (cfg : Config) (st : EngineState) (direction : SignalState)
    (q : ℚ) :
    ((processRetestSignal cfg st direction q).1 = { st with
        last_retest_bar := some st.bar_index
        retest_signals := st.retest_signals + 1 }) ∧
    ((run defaultConfig initialState (t3Inputs 29)).1.retest_signals = 1 ∧
     (run defaultConfig initialState (t3Inputs 29)).1.last_retest_bar = some 29 ∧
     (run defaultConfig initialState (t3Inputs 29)).1.last_signal_time = some 6480 ∧
     (run defaultConfig initialState (t3Inputs 30)).1.breakout_signals = 2 ∧
     (run defaultConfig initialState (t3Inputs 30)).1.last_breakout_bar = some 30 ∧
     (run defaultConfig initialState (t3Inputs 30)).1.active_direction = .BEARISH) :=
  ⟨processRetestSignal_fst cfg st direction q, by decide⟩
